import Mathlib

/-!
Verification development for the xjvmdbg repository: a shallow embedding of
the Java class-file decoder, the bytecode instruction decoder, the class
linker, and the JDWP client pieces, together with theorems settling the
frozen claims C1 .. C10.

Conventions of the embedding:
  * A Rust byte buffer is a `List Nat` (each element a byte value 0..255) and
    a cursor position is a `Nat`; a reader over a `Cursor` is a function
    `List Nat → Nat → PRes a × Nat` returning the outcome and the new
    position (Cursor seek/position operations never fail, matching
    `std::io::Cursor` over an in-memory buffer).
  * A Rust `String`/`&str` is its UTF-8 byte list (`List Nat`), exactly the
    representation Rust uses; string equality is byte-list equality.
  * Machine integers are `Nat` for unsigned and `Int` (two's-complement
    decoded) for signed widths; overflow is made explicit with `wrap32`.
  * `f32`/`f64` values are carried as their raw big-endian bit patterns
    (`Nat`): the source never computes with them, it only stores and
    retrieves them, so the bit pattern is a faithful representation.
  * Rust panics (`unwrap`, `expect`, `todo!`) are the `.panic` outcome;
    `binrw` errors are `.err` with the formatted message bytes.
-/

/-- Byte list of an ASCII string literal (for ASCII text the UTF-8 bytes are
the code points). -/
def ascii (s : String) : List Nat := s.data.map Char.toNat

/-- Decimal digits (as ASCII bytes) of a natural number, the way Rust's
`format!` displays an unsigned integer. -/
def natDecimal (n : Nat) : List Nat := (Nat.toDigits 10 n).map Char.toNat

/-- One uppercase hexadecimal digit as an ASCII byte. -/
def hexDigit (n : Nat) : Nat := if n < 10 then 48 + n else 55 + n

/-- Two-digit uppercase hexadecimal rendering, the way `format!` with a
zero-padded width-2 uppercase-hex specifier displays a `u8`. -/
def hexTwo (n : Nat) : List Nat := [hexDigit (n / 16 % 16), hexDigit (n % 16)]

/-- Outcome of running a fallible Rust computation: normal result, a
recoverable error (`binrw::Error` and friends, message flattened to its
display bytes), or a panic. -/
inductive PRes (α : Type) where
  | ok : α → PRes α
  | err : List Nat → PRes α
  | panic : List Nat → PRes α
deriving Repr, DecidableEq

/-- Big-endian value of a byte list. -/
def beNat (bs : List Nat) : Nat := bs.foldl (fun a b => a * 256 + b) 0

/-- Two's-complement reading of a `w`-bit unsigned value as a signed integer. -/
def toSigned (w : Nat) (v : Nat) : Int :=
  if v < 2 ^ (w - 1) then (v : Int) else (v : Int) - 2 ^ w

/-- Wrapping 32-bit signed arithmetic (what release-mode Rust `i32` addition
and subtraction compute). -/
def wrap32 (x : Int) : Int := (x + 2 ^ 31) % 2 ^ 32 - 2 ^ 31

/-- Exact read of `n` bytes (`Read::read_exact`). On success the position
advances by `n`; on failure (`UnexpectedEof`) the default `read_exact` loop
has consumed every remaining byte, so the position is `max p d.length`. -/
def rdExact (d : List Nat) (n p : Nat) : PRes (List Nat) × Nat :=
  if p + n ≤ d.length then (.ok ((d.drop p).take n), p + n)
  else (.err (ascii "unexpected end of file"), max p d.length)

/-- Big-endian unsigned read of `n` bytes (binrw `uN::read_options` with big
endian). -/
def rdUBE (d : List Nat) (n p : Nat) : PRes Nat × Nat :=
  match rdExact d n p with
  | (.ok bs, q) => (.ok (beNat bs), q)
  | (.err e, q) => (.err e, q)
  | (.panic e, q) => (.panic e, q)

/-- Big-endian signed read of `n` bytes (binrw `iN::read_options`). -/
def rdIBE (d : List Nat) (n p : Nat) : PRes Int × Nat :=
  match rdExact d n p with
  | (.ok bs, q) => (.ok (toSigned (8 * n) (beNat bs)), q)
  | (.err e, q) => (.err e, q)
  | (.panic e, q) => (.panic e, q)

def rdU8 (d : List Nat) (p : Nat) : PRes Nat × Nat := rdUBE d 1 p
def rdU16 (d : List Nat) (p : Nat) : PRes Nat × Nat := rdUBE d 2 p
def rdU32 (d : List Nat) (p : Nat) : PRes Nat × Nat := rdUBE d 4 p
def rdU64 (d : List Nat) (p : Nat) : PRes Nat × Nat := rdUBE d 8 p
def rdI8 (d : List Nat) (p : Nat) : PRes Int × Nat := rdIBE d 1 p
def rdI16 (d : List Nat) (p : Nat) : PRes Int × Nat := rdIBE d 2 p
def rdI32 (d : List Nat) (p : Nat) : PRes Int × Nat := rdIBE d 4 p
def rdI64 (d : List Nat) (p : Nat) : PRes Int × Nat := rdIBE d 8 p

/-- Read `n` items in sequence with an item reader (binrw `count` directive
and the explicit `for` loops of the sources). -/
def rdList {α : Type} (rd : Nat → PRes α × Nat) : Nat → Nat → PRes (List α) × Nat
  | 0, p => (.ok [], p)
  | n + 1, p =>
    match rd p with
    | (.ok a, q) =>
      match rdList rd n q with
      | (.ok as, r) => (.ok (a :: as), r)
      | (.err e, r) => (.err e, r)
      | (.panic e, r) => (.panic e, r)
    | (.err e, q) => (.err e, q)
    | (.panic e, q) => (.panic e, q)

/- ----------------------------------------------------------------------
Bytecode instruction decoder, from src/bytecode/instructions.rs.
---------------------------------------------------------------------- -/

/-- The decoded instruction type (`enum Instruction`,
src/bytecode/instructions.rs lines 9-288).  Signed operand fields are `Int`,
unsigned ones `Nat`.  The `Lookupswitch` match table (a `HashMap<i32, i32>`
in the source) is an association list built with replace-on-duplicate
insertion, mirroring `HashMap::insert`. -/
inductive Instruction where
  | Aaload | Aastore | AconstNull
  | Aload (index : Nat)
  | Anewarray (index : Nat)
  | Areturn | Arraylength
  | Astore (index : Nat)
  | Athrow | Baload | Bastore
  | Bipush (byte : Int)
  | Caload | Castore
  | Checkcast (index : Nat)
  | D2f | D2i | D2l | Dadd | Daload | Dastore | Dcmpg | Dcmpl
  | Dconst0 | Dconst1 | Ddiv
  | Dload (index : Nat)
  | Dmul | Dneg | Drem | Dreturn
  | Dstore (index : Nat)
  | Dsub | Dup | DupX1 | DupX2 | Dup2 | Dup2X1 | Dup2X2
  | F2d | F2i | F2l | Fadd | Faload | Fastore | Fcmpg | Fcmpl
  | Fconst0 | Fconst1 | Fconst2 | Fdiv
  | Fload (index : Nat)
  | Fmul | Fneg | Frem | Freturn
  | Fstore (index : Nat)
  | Fsub
  | Getfield (index : Nat)
  | Getstatic (index : Nat)
  | Goto (offset : Int)
  | GotoW (offset : Int)
  | I2b | I2c | I2d | I2f | I2l | I2s | Iadd | Iaload | Iand | Iastore
  | Iconst (value : Int)
  | Idiv
  | IfAcmpeq (offset : Int)
  | IfAcmpne (offset : Int)
  | IfIcmpeq (offset : Int)
  | IfIcmpne (offset : Int)
  | IfIcmplt (offset : Int)
  | IfIcmpge (offset : Int)
  | IfIcmpgt (offset : Int)
  | IfIcmple (offset : Int)
  | Ifeq (offset : Int)
  | Ifne (offset : Int)
  | Iflt (offset : Int)
  | Ifge (offset : Int)
  | Ifgt (offset : Int)
  | Ifle (offset : Int)
  | Ifnonnull (offset : Int)
  | Ifnull (offset : Int)
  | Iinc (index : Nat) (const_value : Int)
  | Iload (index : Nat)
  | Imul | Ineg
  | Instanceof (index : Nat)
  | Invokedynamic (index : Nat)
  | Invokeinterface (index : Nat) (count : Nat)
  | Invokespecial (index : Nat)
  | Invokestatic (index : Nat)
  | Invokevirtual (index : Nat)
  | Ior | Irem | Ireturn | Ishl | Ishr
  | Istore (index : Nat)
  | Isub | Iushr | Ixor
  | Jsr (offset : Int)
  | JsrW (offset : Int)
  | L2d | L2f | L2i | Ladd | Laload | Land | Lastore | Lcmp
  | Lconst0 | Lconst1
  | Ldc (index : Nat)
  | LdcW (index : Nat)
  | Ldc2W (index : Nat)
  | Ldiv
  | Lload (index : Nat)
  | Lmul | Lneg
  | Lookupswitch (default_offset : Int) (match_table : List (Int × Int))
  | Lor | Lrem | Lreturn | Lshl | Lshr
  | Lstore (index : Nat)
  | Lsub | Lushr | Lxor | Monitorenter | Monitorexit
  | Multianewarray (index : Nat) (dimensions : Nat)
  | New (index : Nat)
  | Newarray (atype : Nat)
  | Nop | Pop | Pop2
  | Putfield (index : Nat)
  | Putstatic (index : Nat)
  | Ret (index : Nat)
  | Return | Saload | Sastore
  | Sipush (short : Int)
  | Swap
  | Tableswitch (defaultv : Int) (low : Int) (high : Int) (offsets : List Int)
  | WideIload (index : Nat)
  | WideFload (index : Nat)
  | WideAload (index : Nat)
  | WideLload (index : Nat)
  | WideDload (index : Nat)
  | WideIstore (index : Nat)
  | WideFstore (index : Nat)
  | WideAstore (index : Nat)
  | WideLstore (index : Nat)
  | WideDstore (index : Nat)
  | WideRet (index : Nat)
  | WideIinc (index : Nat) (const_value : Int)
  | Unknown (error : List Nat)
deriving Repr

/-- Insertion into the `HashMap<i32, i32>` match table: `HashMap::insert`
replaces the value when the key is already present (later entry wins). -/
def mapInsert (m : List (Int × Int)) (k v : Int) : List (Int × Int) :=
  if m.any (fun e => e.1 = k) then m.map (fun e => if e.1 = k then (k, v) else e)
  else m ++ [(k, v)]

/-- Loop body of `read_lookup_switch`: read `n` pairs of (match, offset) and
insert each into the table (source lines 375-380). -/
def lsPairs (d : List Nat) : Nat → Nat → List (Int × Int) → PRes (List (Int × Int)) × Nat
  | 0, p, acc => (.ok acc, p)
  | n + 1, p, acc =>
    match rdI32 d p with
    | (.ok mtch, q) =>
      match rdI32 d q with
      | (.ok off, r) => lsPairs d n r (mapInsert acc mtch off)
      | (.err e, r) => (.err e, r)
      | (.panic e, r) => (.panic e, r)
    | (.err e, q) => (.err e, q)
    | (.panic e, q) => (.panic e, q)

/-- Padding computed by both switch readers (source lines 367-368 and
389-390): `pos` is the stream position at entry to the reader, which is the
position just after the opcode byte, and the skip count is
`(4 - ((pos + 1) % 4)) % 4`. -/
def switchPadding (pos : Nat) : Nat := (4 - (pos + 1) % 4) % 4

/-- Embedding of `read_lookup_switch` (src/bytecode/instructions.rs lines
366-386).  `reader.seek(SeekFrom::Current(padding))` just advances the
cursor.  The pair count is the `i32` `npairs`; the Rust `for _ in
0..npairs_count` runs `max 0 npairs` times. -/
def read_lookup_switch (d : List Nat) (p : Nat) : PRes Instruction × Nat :=
  let pos := p
  let padding_bytes := switchPadding pos
  let q := pos + padding_bytes
  match rdI32 d q with
  | (.ok default_pos, q1) =>
    match rdI32 d q1 with
    | (.ok npairs_count, q2) =>
      match lsPairs d npairs_count.toNat q2 [] with
      | (.ok npairs, q3) => (.ok (.Lookupswitch default_pos npairs), q3)
      | (.err e, q3) => (.err e, q3)
      | (.panic e, q3) => (.panic e, q3)
    | (.err e, q2) => (.err e, q2)
    | (.panic e, q2) => (.panic e, q2)
  | (.err e, q1) => (.err e, q1)
  | (.panic e, q1) => (.panic e, q1)

/-- Loop body of `read_table_switch`: read `n` offsets (source lines
402-405). -/
def tsOffsets (d : List Nat) : Nat → Nat → List Int → PRes (List Int) × Nat
  | 0, p, acc => (.ok acc.reverse, p)
  | n + 1, p, acc =>
    match rdI32 d p with
    | (.ok off, q) => tsOffsets d n q (off :: acc)
    | (.err e, q) => (.err e, q)
    | (.panic e, q) => (.panic e, q)

/-- Embedding of `read_table_switch` (src/bytecode/instructions.rs lines
388-413).  The element count is `high - low + 1` computed in 32-bit
arithmetic (`wrap32`, the release-mode semantics of the Rust `i32`
subtraction and addition), clamped to `0` when negative (lines 397-400). -/
def read_table_switch (d : List Nat) (p : Nat) : PRes Instruction × Nat :=
  let pos := p
  let padding_bytes := switchPadding pos
  let q := pos + padding_bytes
  match rdI32 d q with
  | (.ok dflt, q1) =>
    match rdI32 d q1 with
    | (.ok low, q2) =>
      match rdI32 d q2 with
      | (.ok high, q3) =>
        let count0 := wrap32 (wrap32 (high - low) + 1)
        let count := if count0 < 0 then 0 else count0
        match tsOffsets d count.toNat q3 [] with
        | (.ok offsets, q4) => (.ok (.Tableswitch dflt low high offsets), q4)
        | (.err e, q4) => (.err e, q4)
        | (.panic e, q4) => (.panic e, q4)
      | (.err e, q3) => (.err e, q3)
      | (.panic e, q3) => (.panic e, q3)
    | (.err e, q2) => (.err e, q2)
    | (.panic e, q2) => (.panic e, q2)
  | (.err e, q1) => (.err e, q1)
  | (.panic e, q1) => (.panic e, q1)

/-- Embedding of `WideInstruction::read_options` (src/bytecode/instructions.rs
lines 306-364).  Modelled from the spec: the `Opcode` enum (`opcode.rs`) is
not among the provided sources; the numeric opcode values are the standard
JVM opcode table, which assigns the byte range 0x00..0xC9 to the variants
named in `instructions.rs` (iload 0x15, lload 0x16, fload 0x17, dload 0x18,
aload 0x19, istore 0x36, lstore 0x37, fstore 0x38, dstore 0x39, astore 0x3A,
iinc 0x84, ret 0xA9).  A byte outside the table makes `Opcode::try_from`
fail (message with the byte in zero-padded uppercase hex); a valid opcode
that is not widenable falls to the final arm (lines 358-362). -/
def readWideInstruction (d : List Nat) (p : Nat) : PRes Instruction × Nat :=
  match rdU8 d p with
  | (.ok b, q) =>
    if 201 < b then (.err (ascii "Invalid opcode: 0x" ++ hexTwo b), q)
    else
      match b with
      | 0x15 => match rdU16 d q with
                | (.ok i, r) => (.ok (.WideIload i), r)
                | (.err e, r) => (.err e, r)
                | (.panic e, r) => (.panic e, r)
      | 0x17 => match rdU16 d q with
                | (.ok i, r) => (.ok (.WideFload i), r)
                | (.err e, r) => (.err e, r)
                | (.panic e, r) => (.panic e, r)
      | 0x19 => match rdU16 d q with
                | (.ok i, r) => (.ok (.WideAload i), r)
                | (.err e, r) => (.err e, r)
                | (.panic e, r) => (.panic e, r)
      | 0x16 => match rdU16 d q with
                | (.ok i, r) => (.ok (.WideLload i), r)
                | (.err e, r) => (.err e, r)
                | (.panic e, r) => (.panic e, r)
      | 0x18 => match rdU16 d q with
                | (.ok i, r) => (.ok (.WideDload i), r)
                | (.err e, r) => (.err e, r)
                | (.panic e, r) => (.panic e, r)
      | 0x36 => match rdU16 d q with
                | (.ok i, r) => (.ok (.WideIstore i), r)
                | (.err e, r) => (.err e, r)
                | (.panic e, r) => (.panic e, r)
      | 0x38 => match rdU16 d q with
                | (.ok i, r) => (.ok (.WideFstore i), r)
                | (.err e, r) => (.err e, r)
                | (.panic e, r) => (.panic e, r)
      | 0x3A => match rdU16 d q with
                | (.ok i, r) => (.ok (.WideAstore i), r)
                | (.err e, r) => (.err e, r)
                | (.panic e, r) => (.panic e, r)
      | 0x37 => match rdU16 d q with
                | (.ok i, r) => (.ok (.WideLstore i), r)
                | (.err e, r) => (.err e, r)
                | (.panic e, r) => (.panic e, r)
      | 0x39 => match rdU16 d q with
                | (.ok i, r) => (.ok (.WideDstore i), r)
                | (.err e, r) => (.err e, r)
                | (.panic e, r) => (.panic e, r)
      | 0xA9 => match rdU16 d q with
                | (.ok i, r) => (.ok (.WideRet i), r)
                | (.err e, r) => (.err e, r)
                | (.panic e, r) => (.panic e, r)
      | 0x84 => match rdU16 d q with
                | (.ok i, r) =>
                  match rdI16 d r with
                  | (.ok c, s) => (.ok (.WideIinc i c), s)
                  | (.err e, s) => (.err e, s)
                  | (.panic e, s) => (.panic e, s)
                | (.err e, r) => (.err e, r)
                | (.panic e, r) => (.panic e, r)
      | other => (.err (ascii "Invalid wide 0x" ++ hexTwo other), q)
  | (.err e, q) => (.err e, q)
  | (.panic e, q) => (.panic e, q)

/-- Operand shape of one arm of the big `match` in
`Instruction::read_options` (src/bytecode/instructions.rs lines 426-738). -/
inductive OpShape where
  | simple (i : Instruction)
  | u8op (f : Nat → Instruction)
  | u16op (f : Nat → Instruction)
  | i8op (f : Int → Instruction)
  | i16op (f : Int → Instruction)
  | i32op (f : Int → Instruction)
  | u16u8op (f : Nat → Nat → Instruction)
  | u8i8op (f : Nat → Int → Instruction)
  | tableswitch
  | lookupswitch
  | wide
  | invalid

def instSimple (i : Instruction) (p : Nat) : PRes Instruction × Nat := (.ok i, p)

def instU8 (d : List Nat) (p : Nat) (f : Nat → Instruction) : PRes Instruction × Nat :=
  match rdU8 d p with
  | (.ok v, q) => (.ok (f v), q)
  | (.err e, q) => (.err e, q)
  | (.panic e, q) => (.panic e, q)

def instU16 (d : List Nat) (p : Nat) (f : Nat → Instruction) : PRes Instruction × Nat :=
  match rdU16 d p with
  | (.ok v, q) => (.ok (f v), q)
  | (.err e, q) => (.err e, q)
  | (.panic e, q) => (.panic e, q)

def instI8 (d : List Nat) (p : Nat) (f : Int → Instruction) : PRes Instruction × Nat :=
  match rdI8 d p with
  | (.ok v, q) => (.ok (f v), q)
  | (.err e, q) => (.err e, q)
  | (.panic e, q) => (.panic e, q)

def instI16 (d : List Nat) (p : Nat) (f : Int → Instruction) : PRes Instruction × Nat :=
  match rdI16 d p with
  | (.ok v, q) => (.ok (f v), q)
  | (.err e, q) => (.err e, q)
  | (.panic e, q) => (.panic e, q)

def instI32 (d : List Nat) (p : Nat) (f : Int → Instruction) : PRes Instruction × Nat :=
  match rdI32 d p with
  | (.ok v, q) => (.ok (f v), q)
  | (.err e, q) => (.err e, q)
  | (.panic e, q) => (.panic e, q)

def instU16U8 (d : List Nat) (p : Nat) (f : Nat → Nat → Instruction) : PRes Instruction × Nat :=
  match rdU16 d p with
  | (.ok v, q) =>
    match rdU8 d q with
    | (.ok w, r) => (.ok (f v w), r)
    | (.err e, r) => (.err e, r)
    | (.panic e, r) => (.panic e, r)
  | (.err e, q) => (.err e, q)
  | (.panic e, q) => (.panic e, q)

def instU8I8 (d : List Nat) (p : Nat) (f : Nat → Int → Instruction) : PRes Instruction × Nat :=
  match rdU8 d p with
  | (.ok v, q) =>
    match rdI8 d q with
    | (.ok w, r) => (.ok (f v w), r)
    | (.err e, r) => (.err e, r)
    | (.panic e, r) => (.panic e, r)
  | (.err e, q) => (.err e, q)
  | (.panic e, q) => (.panic e, q)

/-- The opcode dispatch table of `Instruction::read_options`
(src/bytecode/instructions.rs lines 426-738), indexed by opcode byte value.
Modelled from the spec for the numbering: `opcode.rs` with the `Opcode` enum
is not among the provided sources, so the byte values are the standard JVM
opcode assignment for exactly the variant names that `instructions.rs`
matches on (the full JVM opcode set, 0x00 through 0xC9).  Each entry
corresponds one-to-one to a `match` arm of the source; the table is stated
in chunks only to keep elaboration cheap. -/
def opcodeTableChunk0 : List OpShape :=
  [
 .simple .Nop,                                    -- 0x00 nop
    .simple .AconstNull,                             -- 0x01 aconst_null
    .simple (.Iconst (-1)),                          -- 0x02 iconst_m1
    .simple (.Iconst 0),                             -- 0x03 iconst_0
    .simple (.Iconst 1),                             -- 0x04 iconst_1
    .simple (.Iconst 2),                             -- 0x05 iconst_2
    .simple (.Iconst 3),                             -- 0x06 iconst_3
    .simple (.Iconst 4),                             -- 0x07 iconst_4
    .simple (.Iconst 5),                             -- 0x08 iconst_5
    .simple .Lconst0,                                -- 0x09 lconst_0
    .simple .Lconst1,                                -- 0x0a lconst_1
    .simple .Fconst0,                                -- 0x0b fconst_0
    .simple .Fconst1,                                -- 0x0c fconst_1
    .simple .Fconst2,                                -- 0x0d fconst_2
    .simple .Dconst0,                                -- 0x0e dconst_0
    .simple .Dconst1,                                -- 0x0f dconst_1
    .i8op (fun b => .Bipush b),                      -- 0x10 bipush
    .i16op (fun s => .Sipush s),                     -- 0x11 sipush
    .u8op (fun i => .Ldc i),                         -- 0x12 ldc
    .u16op (fun i => .LdcW i),                       -- 0x13 ldc_w
    .u16op (fun i => .Ldc2W i),                      -- 0x14 ldc2_w
    .u8op (fun i => .Iload i),                       -- 0x15 iload
    .u8op (fun i => .Lload i),                       -- 0x16 lload
    .u8op (fun i => .Fload i),                       -- 0x17 fload
    .u8op (fun i => .Dload i),                       -- 0x18 dload
    .u8op (fun i => .Aload i)  -- 0x19 aload
  ]

def opcodeTableChunk1 : List OpShape :=
  [
    .simple (.Iload 0),                              -- 0x1a iload_0
    .simple (.Iload 1),                              -- 0x1b iload_1
    .simple (.Iload 2),                              -- 0x1c iload_2
    .simple (.Iload 3),                              -- 0x1d iload_3
    .simple (.Lload 0),                              -- 0x1e lload_0
    .simple (.Lload 1),                              -- 0x1f lload_1
    .simple (.Lload 2),                              -- 0x20 lload_2
    .simple (.Lload 3),                              -- 0x21 lload_3
    .simple (.Fload 0),                              -- 0x22 fload_0
    .simple (.Fload 1),                              -- 0x23 fload_1
    .simple (.Fload 2),                              -- 0x24 fload_2
    .simple (.Fload 3),                              -- 0x25 fload_3
    .simple (.Dload 0),                              -- 0x26 dload_0
    .simple (.Dload 1),                              -- 0x27 dload_1
    .simple (.Dload 2),                              -- 0x28 dload_2
    .simple (.Dload 3),                              -- 0x29 dload_3
    .simple (.Aload 0),                              -- 0x2a aload_0
    .simple (.Aload 1),                              -- 0x2b aload_1
    .simple (.Aload 2),                              -- 0x2c aload_2
    .simple (.Aload 3),                              -- 0x2d aload_3
    .simple .Iaload,                                 -- 0x2e iaload
    .simple .Laload,                                 -- 0x2f laload
    .simple .Faload,                                 -- 0x30 faload
    .simple .Daload,                                 -- 0x31 daload
    .simple .Aaload,                                 -- 0x32 aaload
    .simple .Baload  -- 0x33 baload
  ]

def opcodeTableChunk2 : List OpShape :=
  [
    .simple .Caload,                                 -- 0x34 caload
    .simple .Saload,                                 -- 0x35 saload
    .u8op (fun i => .Istore i),                      -- 0x36 istore
    .u8op (fun i => .Lstore i),                      -- 0x37 lstore
    .u8op (fun i => .Fstore i),                      -- 0x38 fstore
    .u8op (fun i => .Dstore i),                      -- 0x39 dstore
    .u8op (fun i => .Astore i),                      -- 0x3a astore
    .simple (.Istore 0),                             -- 0x3b istore_0
    .simple (.Istore 1),                             -- 0x3c istore_1
    .simple (.Istore 2),                             -- 0x3d istore_2
    .simple (.Istore 3),                             -- 0x3e istore_3
    .simple (.Lstore 0),                             -- 0x3f lstore_0
    .simple (.Lstore 1),                             -- 0x40 lstore_1
    .simple (.Lstore 2),                             -- 0x41 lstore_2
    .simple (.Lstore 3),                             -- 0x42 lstore_3
    .simple (.Fstore 0),                             -- 0x43 fstore_0
    .simple (.Fstore 1),                             -- 0x44 fstore_1
    .simple (.Fstore 2),                             -- 0x45 fstore_2
    .simple (.Fstore 3),                             -- 0x46 fstore_3
    .simple (.Dstore 0),                             -- 0x47 dstore_0
    .simple (.Dstore 1),                             -- 0x48 dstore_1
    .simple (.Dstore 2),                             -- 0x49 dstore_2
    .simple (.Dstore 3),                             -- 0x4a dstore_3
    .simple (.Astore 0),                             -- 0x4b astore_0
    .simple (.Astore 1),                             -- 0x4c astore_1
    .simple (.Astore 2)  -- 0x4d astore_2
  ]

def opcodeTableChunk3 : List OpShape :=
  [
    .simple (.Astore 3),                             -- 0x4e astore_3
    .simple .Iastore,                                -- 0x4f iastore
    .simple .Lastore,                                -- 0x50 lastore
    .simple .Fastore,                                -- 0x51 fastore
    .simple .Dastore,                                -- 0x52 dastore
    .simple .Aastore,                                -- 0x53 aastore
    .simple .Bastore,                                -- 0x54 bastore
    .simple .Castore,                                -- 0x55 castore
    .simple .Sastore,                                -- 0x56 sastore
    .simple .Pop,                                    -- 0x57 pop
    .simple .Pop2,                                   -- 0x58 pop2
    .simple .Dup,                                    -- 0x59 dup
    .simple .DupX1,                                  -- 0x5a dup_x1
    .simple .DupX2,                                  -- 0x5b dup_x2
    .simple .Dup2,                                   -- 0x5c dup2
    .simple .Dup2X1,                                 -- 0x5d dup2_x1
    .simple .Dup2X2,                                 -- 0x5e dup2_x2
    .simple .Swap,                                   -- 0x5f swap
    .simple .Iadd,                                   -- 0x60 iadd
    .simple .Ladd,                                   -- 0x61 ladd
    .simple .Fadd,                                   -- 0x62 fadd
    .simple .Dadd,                                   -- 0x63 dadd
    .simple .Isub,                                   -- 0x64 isub
    .simple .Lsub,                                   -- 0x65 lsub
    .simple .Fsub,                                   -- 0x66 fsub
    .simple .Dsub  -- 0x67 dsub
  ]

def opcodeTableChunk4 : List OpShape :=
  [
    .simple .Imul,                                   -- 0x68 imul
    .simple .Lmul,                                   -- 0x69 lmul
    .simple .Fmul,                                   -- 0x6a fmul
    .simple .Dmul,                                   -- 0x6b dmul
    .simple .Idiv,                                   -- 0x6c idiv
    .simple .Ldiv,                                   -- 0x6d ldiv
    .simple .Fdiv,                                   -- 0x6e fdiv
    .simple .Ddiv,                                   -- 0x6f ddiv
    .simple .Irem,                                   -- 0x70 irem
    .simple .Lrem,                                   -- 0x71 lrem
    .simple .Frem,                                   -- 0x72 frem
    .simple .Drem,                                   -- 0x73 drem
    .simple .Ineg,                                   -- 0x74 ineg
    .simple .Lneg,                                   -- 0x75 lneg
    .simple .Fneg,                                   -- 0x76 fneg
    .simple .Dneg,                                   -- 0x77 dneg
    .simple .Ishl,                                   -- 0x78 ishl
    .simple .Lshl,                                   -- 0x79 lshl
    .simple .Ishr,                                   -- 0x7a ishr
    .simple .Lshr,                                   -- 0x7b lshr
    .simple .Iushr,                                  -- 0x7c iushr
    .simple .Lushr,                                  -- 0x7d lushr
    .simple .Iand,                                   -- 0x7e iand
    .simple .Land,                                   -- 0x7f land
    .simple .Ior,                                    -- 0x80 ior
    .simple .Lor  -- 0x81 lor
  ]

def opcodeTableChunk5 : List OpShape :=
  [
    .simple .Ixor,                                   -- 0x82 ixor
    .simple .Lxor,                                   -- 0x83 lxor
    .u8i8op (fun i c => .Iinc i c),                  -- 0x84 iinc
    .simple .I2l,                                    -- 0x85 i2l
    .simple .I2f,                                    -- 0x86 i2f
    .simple .I2d,                                    -- 0x87 i2d
    .simple .L2i,                                    -- 0x88 l2i
    .simple .L2f,                                    -- 0x89 l2f
    .simple .L2d,                                    -- 0x8a l2d
    .simple .F2i,                                    -- 0x8b f2i
    .simple .F2l,                                    -- 0x8c f2l
    .simple .F2d,                                    -- 0x8d f2d
    .simple .D2i,                                    -- 0x8e d2i
    .simple .D2l,                                    -- 0x8f d2l
    .simple .D2f,                                    -- 0x90 d2f
    .simple .I2b,                                    -- 0x91 i2b
    .simple .I2c,                                    -- 0x92 i2c
    .simple .I2s,                                    -- 0x93 i2s
    .simple .Lcmp,                                   -- 0x94 lcmp
    .simple .Fcmpl,                                  -- 0x95 fcmpl
    .simple .Fcmpg,                                  -- 0x96 fcmpg
    .simple .Dcmpl,                                  -- 0x97 dcmpl
    .simple .Dcmpg,                                  -- 0x98 dcmpg
    .i16op (fun o => .Ifeq o),                       -- 0x99 ifeq
    .i16op (fun o => .Ifne o),                       -- 0x9a ifne
    .i16op (fun o => .Iflt o)  -- 0x9b iflt
  ]

def opcodeTableChunk6 : List OpShape :=
  [
    .i16op (fun o => .Ifge o),                       -- 0x9c ifge
    .i16op (fun o => .Ifgt o),                       -- 0x9d ifgt
    .i16op (fun o => .Ifle o),                       -- 0x9e ifle
    .i16op (fun o => .IfIcmpeq o),                   -- 0x9f if_icmpeq
    .i16op (fun o => .IfIcmpne o),                   -- 0xa0 if_icmpne
    .i16op (fun o => .IfIcmplt o),                   -- 0xa1 if_icmplt
    .i16op (fun o => .IfIcmpge o),                   -- 0xa2 if_icmpge
    .i16op (fun o => .IfIcmpgt o),                   -- 0xa3 if_icmpgt
    .i16op (fun o => .IfIcmple o),                   -- 0xa4 if_icmple
    .i16op (fun o => .IfAcmpeq o),                   -- 0xa5 if_acmpeq
    .i16op (fun o => .IfAcmpne o),                   -- 0xa6 if_acmpne
    .i16op (fun o => .Goto o),                       -- 0xa7 goto
    .i16op (fun o => .Jsr o),                        -- 0xa8 jsr
    .u8op (fun i => .Ret i),                         -- 0xa9 ret
    .tableswitch,                                    -- 0xaa tableswitch
    .lookupswitch,                                   -- 0xab lookupswitch
    .simple .Ireturn,                                -- 0xac ireturn
    .simple .Lreturn,                                -- 0xad lreturn
    .simple .Freturn,                                -- 0xae freturn
    .simple .Dreturn,                                -- 0xaf dreturn
    .simple .Areturn,                                -- 0xb0 areturn
    .simple .Return,                                 -- 0xb1 return
    .u16op (fun i => .Getstatic i),                  -- 0xb2 getstatic
    .u16op (fun i => .Putstatic i),                  -- 0xb3 putstatic
    .u16op (fun i => .Getfield i),                   -- 0xb4 getfield
    .u16op (fun i => .Putfield i)  -- 0xb5 putfield
  ]

def opcodeTableChunk7 : List OpShape :=
  [
    .u16op (fun i => .Invokevirtual i),              -- 0xb6 invokevirtual
    .u16op (fun i => .Invokespecial i),              -- 0xb7 invokespecial
    .u16op (fun i => .Invokestatic i),               -- 0xb8 invokestatic
    .u16u8op (fun i c => .Invokeinterface i c),      -- 0xb9 invokeinterface
    .u16op (fun i => .Invokedynamic i),              -- 0xba invokedynamic
    .u16op (fun i => .New i),                        -- 0xbb new
    .u8op (fun a => .Newarray a),                    -- 0xbc newarray
    .u16op (fun i => .Anewarray i),                  -- 0xbd anewarray
    .simple .Arraylength,                            -- 0xbe arraylength
    .simple .Athrow,                                 -- 0xbf athrow
    .u16op (fun i => .Checkcast i),                  -- 0xc0 checkcast
    .u16op (fun i => .Instanceof i),                 -- 0xc1 instanceof
    .simple .Monitorenter,                           -- 0xc2 monitorenter
    .simple .Monitorexit,                            -- 0xc3 monitorexit
    .wide,                                           -- 0xc4 wide
    .u16u8op (fun i dm => .Multianewarray i dm),     -- 0xc5 multianewarray
    .i16op (fun o => .Ifnull o),                     -- 0xc6 ifnull
    .i16op (fun o => .Ifnonnull o),                  -- 0xc7 ifnonnull
    .i32op (fun o => .GotoW o),                      -- 0xc8 goto_w
    .i32op (fun o => .JsrW o)  -- 0xc9 jsr_w
  ]

def opcodeTable : List OpShape :=
  opcodeTableChunk0 ++ opcodeTableChunk1 ++ opcodeTableChunk2 ++ opcodeTableChunk3 ++
  opcodeTableChunk4 ++ opcodeTableChunk5 ++ opcodeTableChunk6 ++ opcodeTableChunk7

/-- Embedding of `Instruction::read_options` (src/bytecode/instructions.rs
lines 418-746): read the opcode byte, look it up (`Opcode::try_from`, which
succeeds exactly for the defined JVM opcodes 0x00..0xC9), decode its
operands; a failed lookup yields `Ok(Unknown)` carrying the byte rendered in
decimal (lines 742-744). -/
def instructionRead (d : List Nat) (p : Nat) : PRes Instruction × Nat :=
  match rdU8 d p with
  | (.ok opcode_raw, q) =>
    match opcodeTable.getD opcode_raw .invalid with
    | .simple i => instSimple i q
    | .u8op f => instU8 d q f
    | .u16op f => instU16 d q f
    | .i8op f => instI8 d q f
    | .i16op f => instI16 d q f
    | .i32op f => instI32 d q f
    | .u16u8op f => instU16U8 d q f
    | .u8i8op f => instU8I8 d q f
    | .tableswitch => read_table_switch d q
    | .lookupswitch => read_lookup_switch d q
    | .wide => readWideInstruction d q
    | .invalid => (.ok (.Unknown (ascii "Invalid opcode: " ++ natDecimal opcode_raw)), q)
  | (.err e, q) => (.err e, q)
  | (.panic e, q) => (.panic e, q)

/-- Loop of `parse_instructions` (src/bytecode/instructions.rs lines
765-783): while the position is before the end, read one instruction,
pushing `Unknown` with the formatted message when the read fails.  `fuel`
bounds the number of iterations; `parse_instructions` supplies enough fuel
(the instruction reader always advances, see `instructionRead_advances`),
so the `.err` fuel branch is unreachable from `parse_instructions`. -/
def parseInstructionsLoop (d : List Nat) : Nat → Nat → List Instruction → PRes (List Instruction) × Nat
  | 0, p, acc =>
    if p < d.length then (.err (ascii "instruction loop fuel exhausted"), p) else (.ok acc.reverse, p)
  | fuel + 1, p, acc =>
    if p < d.length then
      match instructionRead d p with
      | (.ok i, q) => parseInstructionsLoop d fuel q (i :: acc)
      | (.err e, q) =>
        parseInstructionsLoop d fuel q (.Unknown (ascii "Could not read instruction: " ++ e) :: acc)
      | (.panic e, q) => (.panic e, q)
    else (.ok acc.reverse, p)

/-- Embedding of `parse_instructions` (src/bytecode/instructions.rs lines
749-786) over an in-memory cursor: `stream_position` and the seeks to the
end and back never fail on a `Cursor`, so the only outcomes are the
instruction list or (never, see `parse_instructions_ok`) the fuel error. -/
def parse_instructions (d : List Nat) (p : Nat) : PRes (List Instruction) :=
  (parseInstructionsLoop d (d.length + 1) p []).1

/- ----------------------------------------------------------------------
Class-file decoder, from src/java_class_file.rs.
---------------------------------------------------------------------- -/

/-- Sequencing of byte-stream readers (the `?` operator of the sources). -/
def pseq {α β : Type} (r : PRes α × Nat) (f : α → Nat → PRes β × Nat) : PRes β × Nat :=
  match r with
  | (.ok a, q) => f a q
  | (.err e, q) => (.err e, q)
  | (.panic e, q) => (.panic e, q)

/-- UTF-8 validity state machine: the second list holds the admissible range
of each still-expected continuation byte.  Encodes exactly the byte
sequences Rust's `String::from_utf8` accepts (RFC 3629: no overlong forms,
no surrogates, no code points beyond U+10FFFF). -/
def utf8Go : List Nat → List (Nat × Nat) → Bool
  | [], [] => true
  | [], _ :: _ => false
  | b :: r, [] =>
    if b < 0x80 then utf8Go r []
    else if b < 0xC2 then false
    else if b < 0xE0 then utf8Go r [(0x80, 0xBF)]
    else if b = 0xE0 then utf8Go r [(0xA0, 0xBF), (0x80, 0xBF)]
    else if b = 0xED then utf8Go r [(0x80, 0x9F), (0x80, 0xBF)]
    else if b < 0xF0 then utf8Go r [(0x80, 0xBF), (0x80, 0xBF)]
    else if b = 0xF0 then utf8Go r [(0x90, 0xBF), (0x80, 0xBF), (0x80, 0xBF)]
    else if b < 0xF4 then utf8Go r [(0x80, 0xBF), (0x80, 0xBF), (0x80, 0xBF)]
    else if b = 0xF4 then utf8Go r [(0x80, 0x8F), (0x80, 0xBF), (0x80, 0xBF)]
    else false
  | b :: r, (lo, hi) :: need => (decide (lo ≤ b) && decide (b ≤ hi)) && utf8Go r need

/-- Validity check performed by `String::from_utf8`. -/
def utf8Valid (l : List Nat) : Bool := utf8Go l []

/-- Embedding of `ModifiedUtf8String::read_options` (src/java_class_file.rs
lines 112-129): `u16` length prefix, then exactly that many bytes — a short
read PANICS through `.expect("Could not read from buffer")` — then UTF-8
validation (failure is a recoverable `binrw` error).  The value is the byte
list of the string, which is exactly Rust's `String` representation. -/
def readModifiedUtf8String (d : List Nat) (p : Nat) : PRes (List Nat) × Nat :=
  pseq (rdU16 d p) fun length q =>
    match rdExact d length q with
    | (.ok buffer, r) =>
      if utf8Valid buffer then (.ok buffer, r)
      else (.err (ascii "Invalid modified UTF-8"), r)
    | (.err _, r) => (.panic (ascii "Could not read from buffer"), r)
    | (.panic e, r) => (.panic e, r)

structure CpClass where
  name_index : Nat
deriving Repr, DecidableEq

structure CpString where
  string_index : Nat
deriving Repr, DecidableEq

structure CpRef where
  class_index : Nat
  name_and_type_index : Nat
deriving Repr, DecidableEq

structure CpNameAndType where
  name_index : Nat
  descriptor_index : Nat
deriving Repr, DecidableEq

/-- The constant-pool entry sum (`enum ConstantPoolEntry`,
src/java_class_file.rs lines 172-186).  `Float`/`Double` carry the raw
big-endian bit pattern of the `f32`/`f64` (the source never computes with
the float values). -/
inductive ConstantPoolEntry where
  | Utf8 (s : List Nat)
  | Integer (v : Int)
  | Float (bits : Nat)
  | Long (v : Int)
  | Double (bits : Nat)
  | Class (c : CpClass)
  | String (s : CpString)
  | FieldRef (r : CpRef)
  | MethodRef (r : CpRef)
  | InterfaceMethodRef (r : CpRef)
  | NameAndType (nt : CpNameAndType)
  | Invalid
deriving Repr, DecidableEq

/-- Embedding of `ConstantPoolEntry::read_options` (src/java_class_file.rs
lines 242-305): one tag byte, dispatch on `ConstantPoolTag::try_from`
(valid tags 1,3..12,15..20); an unknown tag is the custom error with the tag
in decimal; tags 15..20 hit `todo!` — a panic. -/
def readConstantPoolEntry (d : List Nat) (p : Nat) : PRes ConstantPoolEntry × Nat :=
  pseq (rdU8 d p) fun tag_raw q =>
    if tag_raw = 1 then
      pseq (readModifiedUtf8String d q) fun s r => (.ok (.Utf8 s), r)
    else if tag_raw = 3 then
      pseq (rdI32 d q) fun v r => (.ok (.Integer v), r)
    else if tag_raw = 4 then
      pseq (rdU32 d q) fun v r => (.ok (.Float v), r)
    else if tag_raw = 5 then
      pseq (rdI64 d q) fun v r => (.ok (.Long v), r)
    else if tag_raw = 6 then
      pseq (rdU64 d q) fun v r => (.ok (.Double v), r)
    else if tag_raw = 7 then
      pseq (rdU16 d q) fun v r => (.ok (.Class ⟨v⟩), r)
    else if tag_raw = 8 then
      pseq (rdU16 d q) fun v r => (.ok (.String ⟨v⟩), r)
    else if tag_raw = 9 then
      pseq (rdU16 d q) fun c r => pseq (rdU16 d r) fun nt s => (.ok (.FieldRef ⟨c, nt⟩), s)
    else if tag_raw = 10 then
      pseq (rdU16 d q) fun c r => pseq (rdU16 d r) fun nt s => (.ok (.MethodRef ⟨c, nt⟩), s)
    else if tag_raw = 11 then
      pseq (rdU16 d q) fun c r => pseq (rdU16 d r) fun nt s => (.ok (.InterfaceMethodRef ⟨c, nt⟩), s)
    else if tag_raw = 12 then
      pseq (rdU16 d q) fun n r => pseq (rdU16 d r) fun dsc s => (.ok (.NameAndType ⟨n, dsc⟩), s)
    else if tag_raw = 15 then (.panic (ascii "not yet implemented: CP MethodHandle not implemented"), q)
    else if tag_raw = 16 then (.panic (ascii "not yet implemented: CP MethodType not implemented"), q)
    else if tag_raw = 17 then (.panic (ascii "not yet implemented: CP Dynamic not implemented"), q)
    else if tag_raw = 18 then (.panic (ascii "not yet implemented: CP InvokeDynamic not implemented"), q)
    else if tag_raw = 19 then (.panic (ascii "not yet implemented: CP Module not implemented"), q)
    else if tag_raw = 20 then (.panic (ascii "not yet implemented: CP Package not implemented"), q)
    else (.err (ascii "Invalid CP tag: " ++ natDecimal tag_raw), q)

structure ConstantPool where
  entries : List ConstantPoolEntry
deriving Repr, DecidableEq

/-- Loop of `ConstantPool::read_options` (src/java_class_file.rs lines
440-454): while `parsed_count < length`, read an entry, store it at index
`parsed_count`, and advance by 2 for `Long`/`Double` (the two-slot rule),
otherwise by 1.  `fuel` only bounds the iteration count; the caller passes
`length`, which always suffices because `parsed_count` starts at 1 and
grows by at least 1 per iteration, so the fuel branch is unreachable. -/
def cpLoop (d : List Nat) (length : Nat) :
    Nat → List ConstantPoolEntry → Nat → Nat → PRes (List ConstantPoolEntry) × Nat
  | 0, entries, parsed_count, p =>
    if parsed_count < length then (.err (ascii "constant pool fuel exhausted"), p)
    else (.ok entries, p)
  | fuel + 1, entries, parsed_count, p =>
    if parsed_count < length then
      match readConstantPoolEntry d p with
      | (.ok entry, q) =>
        let insert_index := parsed_count
        let next_count :=
          match entry with
          | .Long _ => parsed_count + 2
          | .Double _ => parsed_count + 2
          | _ => parsed_count + 1
        cpLoop d length fuel (entries.set insert_index entry) next_count q
      | (.err e, q) => (.err e, q)
      | (.panic e, q) => (.panic e, q)
    else (.ok entries, p)

/-- Embedding of `ConstantPool::read_options` (src/java_class_file.rs lines
430-457): `u16` count, a vector of `count` `Invalid` placeholders, then the
fill loop starting at `parsed_count = 1`. -/
def readConstantPool (d : List Nat) (p : Nat) : PRes ConstantPool × Nat :=
  pseq (rdU16 d p) fun length q =>
    match cpLoop d length length (List.replicate length .Invalid) 1 q with
    | (.ok entries, r) => (.ok ⟨entries⟩, r)
    | (.err e, r) => (.err e, r)
    | (.panic e, r) => (.panic e, r)

/-- Typed accessor `ConstantPool::find_utf8` (src/java_class_file.rs lines
325-336): out-of-range and wrong-kind lookups yield `None`. -/
def ConstantPool.find_utf8 (cp : ConstantPool) (cp_index : Nat) : Option (List Nat) :=
  if cp.entries.length ≤ cp_index then none
  else
    match cp.entries.getD cp_index .Invalid with
    | .Utf8 s => some s
    | _ => none

/-- Typed accessor `ConstantPool::find_class` (lines 337-348). -/
def ConstantPool.find_class (cp : ConstantPool) (cp_index : Nat) : Option CpClass :=
  if cp.entries.length ≤ cp_index then none
  else
    match cp.entries.getD cp_index .Invalid with
    | .Class c => some c
    | _ => none

/-- Typed accessor `ConstantPool::find_int` (lines 349-360). -/
def ConstantPool.find_int (cp : ConstantPool) (cp_index : Nat) : Option Int :=
  if cp.entries.length ≤ cp_index then none
  else
    match cp.entries.getD cp_index .Invalid with
    | .Integer v => some v
    | _ => none

/-- Narrowing accessor `find_short` (`int as i16`, lines 361-363). -/
def ConstantPool.find_short (cp : ConstantPool) (cp_index : Nat) : Option Int :=
  (cp.find_int cp_index).map (fun v => toSigned 16 (v % 2 ^ 16).toNat)

/-- Narrowing accessor `find_byte` (`int as u8`, lines 364-366). -/
def ConstantPool.find_byte (cp : ConstantPool) (cp_index : Nat) : Option Nat :=
  (cp.find_int cp_index).map (fun v => (v % 2 ^ 8).toNat)

/-- Narrowing accessor `find_char` (`byte as char`, lines 367-369; the code
point equals the byte). -/
def ConstantPool.find_char (cp : ConstantPool) (cp_index : Nat) : Option Nat :=
  (cp.find_byte cp_index).map (fun b => b)

/-- Narrowing accessor `find_bool` (`int != 0`, lines 370-372). -/
def ConstantPool.find_bool (cp : ConstantPool) (cp_index : Nat) : Option Bool :=
  (cp.find_int cp_index).map (fun v => v ≠ 0)

/-- Typed accessor `ConstantPool::find_float` (lines 374-385), returning the
stored bit pattern. -/
def ConstantPool.find_float (cp : ConstantPool) (cp_index : Nat) : Option Nat :=
  if cp.entries.length ≤ cp_index then none
  else
    match cp.entries.getD cp_index .Invalid with
    | .Float v => some v
    | _ => none

/-- Typed accessor `ConstantPool::find_long` (lines 387-398). -/
def ConstantPool.find_long (cp : ConstantPool) (cp_index : Nat) : Option Int :=
  if cp.entries.length ≤ cp_index then none
  else
    match cp.entries.getD cp_index .Invalid with
    | .Long v => some v
    | _ => none

/-- Typed accessor `ConstantPool::find_double` (lines 400-411), returning the
stored bit pattern. -/
def ConstantPool.find_double (cp : ConstantPool) (cp_index : Nat) : Option Nat :=
  if cp.entries.length ≤ cp_index then none
  else
    match cp.entries.getD cp_index .Invalid with
    | .Double v => some v
    | _ => none

/-- Typed accessor `ConstantPool::find_string_ref` (lines 413-424): a
`String` entry pointing to a `Utf8` entry. -/
def ConstantPool.find_string_ref (cp : ConstantPool) (cp_index : Nat) : Option (List Nat) :=
  if cp.entries.length ≤ cp_index then none
  else
    match cp.entries.getD cp_index .Invalid with
    | .String s => cp.find_utf8 s.string_index
    | _ => none

/-- The class-file version header (`struct Version`, src/java_class_file.rs
lines 9-24): the 4-byte magic is READ BUT NOT VALIDATED — the `binrw`
derive stores whatever 32-bit value the input starts with. -/
structure Version where
  magic : Nat
  minor : Nat
  major : Nat
deriving Repr, DecidableEq

/-- The magic constant `JAVA_CLASS_FILE_MAGIC` (line 7), used only by
`Version::default()` (for writing), not by the reader. -/
def JAVA_CLASS_FILE_MAGIC : Nat := 0xCAFEBABE

def Version.default : Version := ⟨JAVA_CLASS_FILE_MAGIC, 0, 52⟩

def readVersion (d : List Nat) (p : Nat) : PRes Version × Nat :=
  pseq (rdU32 d p) fun magic q =>
    pseq (rdU16 d q) fun minor r =>
      pseq (rdU16 d r) fun major s => (.ok ⟨magic, minor, major⟩, s)

/-- Raw attribute (`struct AttributeInfo`, src/java_class_file.rs lines
81-87): name index, `u32` length, that many raw bytes. -/
structure AttributeInfo where
  name_index : Nat
  data : List Nat
deriving Repr, DecidableEq

def readAttributeInfo (d : List Nat) (p : Nat) : PRes AttributeInfo × Nat :=
  pseq (rdU16 d p) fun name_index q =>
    pseq (rdU32 d q) fun data_length r =>
      pseq (rdExact d data_length r) fun data s => (.ok ⟨name_index, data⟩, s)

/-- Field member (`struct FieldInfo`, lines 88-96). -/
structure FieldInfo where
  access_flags : Nat
  name_index : Nat
  descriptor_index : Nat
  attributes : List AttributeInfo
deriving Repr, DecidableEq

def readFieldInfo (d : List Nat) (p : Nat) : PRes FieldInfo × Nat :=
  pseq (rdU16 d p) fun access q =>
    pseq (rdU16 d q) fun name r =>
      pseq (rdU16 d r) fun dsc s =>
        pseq (rdU16 d s) fun attributes_length t =>
          pseq (rdList (readAttributeInfo d) attributes_length t) fun attrs u =>
            (.ok ⟨access, name, dsc, attrs⟩, u)

/-- Method member (`struct MethodInfo`, lines 97-105); same wire shape as a
field. -/
structure MethodInfo where
  access_flags : Nat
  name_index : Nat
  descriptor_index : Nat
  attributes : List AttributeInfo
deriving Repr, DecidableEq

def readMethodInfo (d : List Nat) (p : Nat) : PRes MethodInfo × Nat :=
  pseq (rdU16 d p) fun access q =>
    pseq (rdU16 d q) fun name r =>
      pseq (rdU16 d r) fun dsc s =>
        pseq (rdU16 d s) fun attributes_length t =>
          pseq (rdList (readAttributeInfo d) attributes_length t) fun attrs u =>
            (.ok ⟨access, name, dsc, attrs⟩, u)

/-- The decoded class file (`struct JavaClassFile`, src/java_class_file.rs
lines 472-497). -/
structure JavaClassFile where
  version : Version
  constant_pool : ConstantPool
  access_flags : Nat
  this_class : Nat
  super_class : Nat
  interfaces : List Nat
  fields : List FieldInfo
  methods : List MethodInfo
  attributes : List AttributeInfo
deriving Repr, DecidableEq

/-- Embedding of the `binrw`-derived big-endian reader of `JavaClassFile`
(src/java_class_file.rs lines 472-497): the fields are read in declaration
order; the list fields each have a `u16` length prefix.  Nothing checks the
magic. -/
def readJavaClassFile (d : List Nat) (p : Nat) : PRes JavaClassFile × Nat :=
  pseq (readVersion d p) fun version q1 =>
    pseq (readConstantPool d q1) fun constant_pool q2 =>
      pseq (rdU16 d q2) fun access_flags q3 =>
        pseq (rdU16 d q3) fun this_class q4 =>
          pseq (rdU16 d q4) fun super_class q5 =>
            pseq (rdU16 d q5) fun interfaces_length q6 =>
              pseq (rdList (rdU16 d) interfaces_length q6) fun interfaces q7 =>
                pseq (rdU16 d q7) fun fields_length q8 =>
                  pseq (rdList (readFieldInfo d) fields_length q8) fun fields q9 =>
                    pseq (rdU16 d q9) fun methods_length q10 =>
                      pseq (rdList (readMethodInfo d) methods_length q10) fun methods q11 =>
                        pseq (rdU16 d q11) fun attributes_length q12 =>
                          pseq (rdList (readAttributeInfo d) attributes_length q12) fun attributes q13 =>
                            (.ok ⟨version, constant_pool, access_flags, this_class, super_class,
                                  interfaces, fields, methods, attributes⟩, q13)

/-- Decoding a class file from the start of a buffer. -/
def decodeJavaClassFile (d : List Nat) : PRes JavaClassFile :=
  (readJavaClassFile d 0).1

/-- Embedding of `JavaClassFile::get_name` (src/java_class_file.rs lines
499-504): `find_class(this_class).unwrap()` then
`find_utf8(name_index).unwrap()` — either lookup returning `None` is a
panic. -/
def JavaClassFile.get_name (cf : JavaClassFile) : PRes (List Nat) :=
  match cf.constant_pool.find_class cf.this_class with
  | none => .panic (ascii "called Option::unwrap on a None value")
  | some class_info =>
    match cf.constant_pool.find_utf8 class_info.name_index with
    | none => .panic (ascii "called Option::unwrap on a None value")
    | some s => .ok s

/- ----------------------------------------------------------------------
Descriptor parser, from src/descriptors.rs.
---------------------------------------------------------------------- -/

inductive DescriptorError where
  | InvalidChar (c : Nat)
  | UnexpectedEnd
  | ClassTerminatorNotFound
  | TooManyArrayDimensions
  | MissingOpenParen
  | MissingCloseParen
  | InvalidReturnType
deriving Repr, DecidableEq

/-- The base-type enum (`enum Type` in src/descriptors.rs lines 14-24;
renamed `JType` because `Type` is a Lean keyword). -/
inductive JType where
  | SignedByte | Char | Double | Float | Integer | Long | Short | Boolean | Void
deriving Repr, DecidableEq

inductive ComponentType where
  | Base (t : JType)
  | Object (class_name : List Nat)
deriving Repr, DecidableEq

/-- Parsed field descriptor (src/descriptors.rs lines 33-36).  The
`FieldDescriptor::new` panic on a zero dimension is unreachable from the
parser, which only passes `Some` of a positive count. -/
structure FieldDescriptor where
  element_type : ComponentType
  array_dimension : Option Nat
deriving Repr, DecidableEq

structure MethodDescriptor where
  parameters : List FieldDescriptor
  return_type : Option FieldDescriptor
deriving Repr, DecidableEq

/-- Code points of a UTF-8 byte list (Rust's `str::chars`); assumes the
input is valid UTF-8, which holds for every string the decoder produces
(a stray malformed byte decodes to itself, never dropping the tail). -/
def charsList : List Nat → List Nat
  | [] => []
  | b :: r =>
    if b < 0x80 then b :: charsList r
    else if b < 0xE0 then
      match r with
      | c1 :: r1 => ((b - 0xC0) * 64 + (c1 - 0x80)) :: charsList r1
      | [] => [b]
    else if b < 0xF0 then
      match r with
      | c1 :: c2 :: r2 => ((b - 0xE0) * 4096 + (c1 - 0x80) * 64 + (c2 - 0x80)) :: charsList r2
      | _ => [b]
    else
      match r with
      | c1 :: c2 :: c3 :: r3 =>
        ((b - 0xF0) * 262144 + (c1 - 0x80) * 4096 + (c2 - 0x80) * 64 + (c3 - 0x80)) :: charsList r3
      | _ => [b]

/-- The `n`-th char of a string (`str::chars().nth(n)`). -/
def charsNth (s : List Nat) (n : Nat) : Option Nat := (charsList s).get? n

/-- Embedding of `parse_component_type` (src/descriptors.rs lines 107-137).
The `find(';')` byte position is a plain byte scan (the needle is ASCII). -/
def parse_component_type (descriptor : List Nat) : Except DescriptorError (ComponentType × Nat) :=
  if descriptor.isEmpty then .error .UnexpectedEnd
  else
    match (charsList descriptor).headD 0 with
    | 76 =>  -- the char L
      match descriptor.findIdx? (fun b => b = 59) with  -- the char ; is byte 59
      | none => .error .ClassTerminatorNotFound
      | some semicolon_pos =>
        .ok (.Object ((descriptor.drop 1).take (semicolon_pos - 1)), semicolon_pos + 1)
    | 66 => .ok (.Base .SignedByte, 1)  -- B
    | 67 => .ok (.Base .Char, 1)        -- C
    | 68 => .ok (.Base .Double, 1)      -- D
    | 70 => .ok (.Base .Float, 1)       -- F
    | 73 => .ok (.Base .Integer, 1)     -- I
    | 74 => .ok (.Base .Long, 1)        -- J
    | 83 => .ok (.Base .Short, 1)       -- S
    | 90 => .ok (.Base .Boolean, 1)     -- Z
    | 86 => .ok (.Base .Void, 1)        -- V
    | other => .error (.InvalidChar other)

/-- The bracket-counting loop of `parse_field_descriptor_at_position`
(src/descriptors.rs lines 147-156): count leading array dimensions,
rejecting more than 255.  `fuel` bounds the iterations; the caller supplies
the string length, which suffices because the position grows by one per
iteration (the fuel branch is unreachable). -/
def descDims (descriptor : List Nat) : Nat → Nat → Nat → Except DescriptorError (Nat × Nat)
  | 0, pos, dimension_count => .ok (pos, dimension_count)
  | fuel + 1, pos, dimension_count =>
    if pos < descriptor.length ∧ charsNth descriptor pos = some 91 then  -- the char [
      if dimension_count + 1 > 255 then .error .TooManyArrayDimensions
      else descDims descriptor fuel (pos + 1) (dimension_count + 1)
    else .ok (pos, dimension_count)

/-- Embedding of `parse_field_descriptor_at_position` (src/descriptors.rs
lines 139-171). -/
def parse_field_descriptor_at_position (descriptor : List Nat) (start : Nat) :
    Except DescriptorError (FieldDescriptor × Nat) :=
  if descriptor.length ≤ start then .error .UnexpectedEnd
  else
    match descDims descriptor (descriptor.length + 1) start 0 with
    | .error e => .error e
    | .ok (pos, dimension_count) =>
      if descriptor.length ≤ pos then .error .UnexpectedEnd
      else
        match parse_component_type (descriptor.drop pos) with
        | .error e => .error e
        | .ok (component_type, consumed) =>
          let array_dimension := if dimension_count > 0 then some dimension_count else none
          .ok (⟨component_type, array_dimension⟩, pos + consumed)

/-- Embedding of `parse_field_descriptor` (src/descriptors.rs lines
173-184): parse at position 0 and require full consumption; the error path
indexes the char at `consumed` with `.unwrap()`, which panics when that
byte offset is not a char index. -/
def parse_field_descriptor (descriptor : List Nat) : PRes (Except DescriptorError FieldDescriptor) :=
  match parse_field_descriptor_at_position descriptor 0 with
  | .error e => .ok (.error e)
  | .ok (field_descriptor, consumed) =>
    if consumed ≠ descriptor.length then
      match charsNth descriptor consumed with
      | some c => .ok (.error (.InvalidChar c))
      | none => .panic (ascii "called Option::unwrap on a None value")
    else .ok (.ok field_descriptor)

/-- The parameter-section loop of `parse_method_descriptor` (src/descriptors.rs
lines 205-212).  `fuel` bounds the iterations; a successful parse always
advances the position, so the caller-supplied length suffices and the fuel
branch is unreachable. -/
def methodParamsLoop (parameter_section : List Nat) :
    Nat → Nat → List FieldDescriptor → Except DescriptorError (List FieldDescriptor)
  | 0, _, parameters => .ok parameters.reverse
  | fuel + 1, pos, parameters =>
    if pos < parameter_section.length then
      match parse_field_descriptor_at_position parameter_section pos with
      | .error e => .error e
      | .ok (param, consumed) => methodParamsLoop parameter_section fuel consumed (param :: parameters)
    else .ok parameters.reverse

/-- Embedding of `parse_method_descriptor` (src/descriptors.rs lines
186-225). -/
def parse_method_descriptor (descriptor : List Nat) : PRes (Except DescriptorError MethodDescriptor) :=
  if descriptor.isEmpty then .ok (.error .UnexpectedEnd)
  else if descriptor.headD 0 ≠ 40 then .ok (.error .MissingOpenParen)  -- the char (
  else
    match descriptor.findIdx? (fun b => b = 41) with  -- the char )
    | none => .ok (.error .MissingCloseParen)
    | some close_paren_pos =>
      let parameter_section := (descriptor.drop 1).take (close_paren_pos - 1)
      let return_section := descriptor.drop (close_paren_pos + 1)
      match methodParamsLoop parameter_section (parameter_section.length + 1) 0 [] with
      | .error e => .ok (.error e)
      | .ok parameters =>
        if return_section.isEmpty then .ok (.error .UnexpectedEnd)
        else if return_section = [86] then .ok (.ok ⟨parameters, none⟩)  -- "V"
        else
          match parse_field_descriptor return_section with
          | .ok (.error e) => .ok (.error e)
          | .ok (.ok return_descriptor) => .ok (.ok ⟨parameters, some return_descriptor⟩)
          | .err e => .err e
          | .panic m => .panic m

/- ----------------------------------------------------------------------
Class linker, from src/java_class/{types,attributes,errors,builder}.rs.
---------------------------------------------------------------------- -/

structure ConstantValueAttributeRaw where
  value_cp_index : Nat
deriving Repr, DecidableEq

structure SourceFileAttributeRaw where
  file_name_cp_index : Nat
deriving Repr, DecidableEq

/-- Modelled from the spec: `CodeExceptionRaw` is referenced from
src/java_class/attributes.rs but its declaration (in java_class_file.rs) is
not among the provided sources; per the spec an exception-table entry is
four u16 fields. -/
structure CodeExceptionRaw where
  start_pc : Nat
  end_pc : Nat
  handler_pc : Nat
  catch_type : Nat
deriving Repr, DecidableEq

def readCodeExceptionRaw (d : List Nat) (p : Nat) : PRes CodeExceptionRaw × Nat :=
  pseq (rdU16 d p) fun s q =>
    pseq (rdU16 d q) fun e r =>
      pseq (rdU16 d r) fun h t =>
        pseq (rdU16 d t) fun c u => (.ok ⟨s, e, h, c⟩, u)

/-- Modelled from the spec: `CodeAttributeRaw` is referenced from
src/java_class/attributes.rs but its declaration is not among the provided
sources; per the spec (section 4.5, step 5) the Code attribute payload is
max_stack:u16, max_locals:u16, u32-length code bytes, a u16-length
exception table, and a u16-length nested attribute list. -/
structure CodeAttributeRaw where
  max_stack : Nat
  max_locals : Nat
  code : List Nat
  exception_table : List CodeExceptionRaw
  attributes : List AttributeInfo
deriving Repr, DecidableEq

def readCodeAttributeRaw (d : List Nat) (p : Nat) : PRes CodeAttributeRaw × Nat :=
  pseq (rdU16 d p) fun max_stack q1 =>
    pseq (rdU16 d q1) fun max_locals q2 =>
      pseq (rdU32 d q2) fun code_length q3 =>
        pseq (rdExact d code_length q3) fun code q4 =>
          pseq (rdU16 d q4) fun et_length q5 =>
            pseq (rdList (readCodeExceptionRaw d) et_length q5) fun exception_table q6 =>
              pseq (rdU16 d q6) fun attributes_count q7 =>
                pseq (rdList (readAttributeInfo d) attributes_count q7) fun attributes q8 =>
                  (.ok ⟨max_stack, max_locals, code, exception_table, attributes⟩, q8)

/-- Typed constant value (`enum ConstantAttribute`,
src/java_class/attributes.rs lines 13-24); floats carried as bit patterns. -/
inductive ConstantAttribute where
  | Int (v : Int)
  | Short (v : Int)
  | Char (c : Nat)
  | Byte (b : Nat)
  | Boolean (b : Bool)
  | Float (bits : Nat)
  | Long (v : Int)
  | Double (bits : Nat)
  | String (s : List Nat)
deriving Repr, DecidableEq

structure SourceFileAttribute where
  file_name : List Nat
deriving Repr, DecidableEq

structure ErrorAttribute where
  message : List Nat
  data : List Nat
deriving Repr, DecidableEq

mutual

/-- Resolved attribute (`enum AttributeType`, src/java_class/attributes.rs
lines 111-119). -/
inductive AttributeType where
  | Code (c : CodeAttribute)
  | ConstantValue (c : ConstantAttribute)
  | ConstantValueIndex (r : ConstantValueAttributeRaw)
  | Deprecated
  | SourceFile (s : SourceFileAttribute)
  | Error (e : ErrorAttribute)

/-- Resolved Code attribute (`struct CodeAttribute`,
src/java_class/attributes.rs lines 66-73). -/
inductive CodeAttribute where
  | mk (max_stack : Nat) (max_locals : Nat) (code : List Nat)
       (exception_table : List CodeExceptionRaw) (attributes : List AttributeType)

end

/-- Linked field (`struct Field`, src/java_class/types.rs lines 10-25;
renamed `JField` because Mathlib already declares `Field`). -/
structure JField where
  access_flags : Nat
  name : List Nat
  descriptor : FieldDescriptor
  attributes : List AttributeType

/-- Linked method (`struct Method`, src/java_class/types.rs lines 27-42). -/
structure Method where
  access_flags : Nat
  name : List Nat
  descriptor : MethodDescriptor
  attributes : List AttributeType

/-- Linked class (`struct JavaClass`, src/java_class/types.rs lines 44-82);
the `Rc` shared references become plain values in the embedding. -/
inductive JavaClass where
  | mk (version : Version) (name : List Nat) (super_class : Option JavaClass)
       (interfaces : List JavaClass) (fields : List JField) (methods : List Method)
       (attributes : List AttributeType)

def JavaClass.name : JavaClass → List Nat
  | .mk _ n _ _ _ _ _ => n

def JavaClass.super_class : JavaClass → Option JavaClass
  | .mk _ _ s _ _ _ _ => s

def JavaClass.fields : JavaClass → List JField
  | .mk _ _ _ _ f _ _ => f

def JavaClass.attributes : JavaClass → List AttributeType
  | .mk _ _ _ _ _ _ a => a

/-- `JavaClass::new` (src/java_class/types.rs lines 54-64). -/
def JavaClass.new (version : Version) (name : List Nat) : JavaClass :=
  .mk version name none [] [] [] []

/-- `JavaClass::from_name` (src/java_class/types.rs lines 71-81). -/
def JavaClass.from_name (name : List Nat) : JavaClass :=
  .mk Version.default name none [] [] [] []

/-- `enum AttributeReadError` (src/java_class/errors.rs lines 1-4; the
source spells the second variant `NotSuported`). -/
inductive AttributeReadError where
  | Deserialization (msg : List Nat)
  | NotSuported

inductive ConstantValueReadError where
  | ReferenceTypeNotString
  | NotFoundInPool
  | VoidField
deriving Repr, DecidableEq

/-- Outcome of a builder computation: a value or a propagated panic. -/
inductive BOut (α : Type) where
  | ok : α → BOut α
  | panic : List Nat → BOut α

/-- The message of `Option::unwrap` on `None`. -/
def unwrapMsg : List Nat := ascii "called Option::unwrap on a None value"

/-- The linker's memo map (`classes: HashMap<String, Rc<JavaClass>>`),
as an association list keyed by class name. -/
abbrev Classes : Type := List (List Nat × JavaClass)

/-- `JavaClassContainerBuilder::find_class` (src/java_class/builder.rs lines
25-34): linear search of the map by name. -/
def builder_find_class (classes : Classes) (name : List Nat) : Option JavaClass :=
  (List.find? (fun e => e.1 = name) classes).map (fun e => e.2)

/-- `HashMap::insert` on the memo map: replace the value if the key exists,
otherwise add the binding. -/
def classesInsert (classes : Classes) (k : List Nat) (v : JavaClass) : Classes :=
  if classes.any (fun e => e.1 = k) then
    classes.map (fun e => if e.1 = k then (k, v) else e)
  else classes ++ [(k, v)]

/-- The `raw_classes.iter().find(|rc| rc.get_name() == super_name)` search of
`parse_super_class` (src/java_class/builder.rs lines 50-53); `get_name` can
panic inside the closure. -/
def findRawByName : List JavaClassFile → List Nat → BOut (Option JavaClassFile)
  | [], _ => .ok none
  | rc :: rest, name =>
    match rc.get_name with
    | .ok n => if n = name then .ok (some rc) else findRawByName rest name
    | .panic m => .panic m
    | .err m => .panic m

/-- `SourceFileAttribute::read` (src/java_class/attributes.rs lines 45-64):
read the u16 pool index from the payload, then `find_utf8(..).unwrap()` —
a missing or wrong-kind entry is a panic. -/
def sourceFileAttributeRead (data : List Nat) (raw_class : JavaClassFile) :
    PRes SourceFileAttribute :=
  match rdU16 data 0 with
  | (.ok idx, _) =>
    match raw_class.constant_pool.find_utf8 idx with
    | some file_name => .ok ⟨file_name⟩
    | none => .panic unwrapMsg
  | (.err e, _) => .err e
  | (.panic m, _) => .panic m

/-- Debug rendering of `ConstantValueReadError` (its derived `Debug`). -/
def cvErrDebug : ConstantValueReadError → List Nat
  | .ReferenceTypeNotString => ascii "ReferenceTypeNotString"
  | .NotFoundInPool => ascii "NotFoundInPool"
  | .VoidField => ascii "VoidField"

/-- `parse_field_constant_value` (src/java_class/builder.rs lines 117-194):
promote a ConstantValue pool index to a typed value guided by the field's
descriptor; only reads the descriptor from the field. -/
def parse_field_constant_value (descriptor : FieldDescriptor) (idx : Nat)
    (raw_class : JavaClassFile) : Except ConstantValueReadError ConstantAttribute :=
  match descriptor.element_type with
  | .Base field_type =>
    match field_type with
    | .SignedByte =>
      match raw_class.constant_pool.find_byte idx with
      | some b => .ok (.Byte b)
      | none => .error .NotFoundInPool
    | .Char =>
      match raw_class.constant_pool.find_char idx with
      | some c => .ok (.Char c)
      | none => .error .NotFoundInPool
    | .Double =>
      match raw_class.constant_pool.find_double idx with
      | some v => .ok (.Double v)
      | none => .error .NotFoundInPool
    | .Float =>
      match raw_class.constant_pool.find_float idx with
      | some v => .ok (.Float v)
      | none => .error .NotFoundInPool
    | .Integer =>
      match raw_class.constant_pool.find_int idx with
      | some v => .ok (.Int v)
      | none => .error .NotFoundInPool
    | .Long =>
      match raw_class.constant_pool.find_long idx with
      | some v => .ok (.Long v)
      | none => .error .NotFoundInPool
    | .Short =>
      match raw_class.constant_pool.find_short idx with
      | some v => .ok (.Short v)
      | none => .error .NotFoundInPool
    | .Boolean =>
      match raw_class.constant_pool.find_bool idx with
      | some v => .ok (.Boolean v)
      | none => .error .NotFoundInPool
    | .Void => .error .VoidField
  | .Object class_name =>
    if class_name = ascii "java/lang/String" then
      match raw_class.constant_pool.find_string_ref idx with
      | some s => .ok (.String s)
      | none => .error .NotFoundInPool
    else .error .ReferenceTypeNotString

/-- Map a parse-attribute callback over an attribute list (the `for` loops of
`CodeAttribute::read` and `parse_class_attributes`). -/
def parseAttrListWith (pa : AttributeInfo → JavaClassFile → Option (BOut AttributeType))
    (rc : JavaClassFile) : List AttributeInfo → Option (BOut (List AttributeType))
  | [] => some (.ok [])
  | a :: rest =>
    match pa a rc with
    | none => none
    | some (.panic m) => some (.panic m)
    | some (.ok attr) =>
      match parseAttrListWith pa rc rest with
      | none => none
      | some (.panic m) => some (.panic m)
      | some (.ok attrs) => some (.ok (attr :: attrs))

/-- `CodeAttribute::read` (src/java_class/attributes.rs lines 74-103),
parameterized by the recursive attribute parser: decode the raw Code
payload (failure is `AttributeReadError::Deserialization`), then resolve
the nested attributes. -/
def codeAttributeRead (pa : AttributeInfo → JavaClassFile → Option (BOut AttributeType))
    (data : List Nat) (raw_class : JavaClassFile) :
    Option (BOut (Except AttributeReadError AttributeType)) :=
  match readCodeAttributeRaw data 0 with
  | (.err e, _) => some (.ok (.error (.Deserialization e)))
  | (.panic m, _) => some (.panic m)
  | (.ok raw, _) =>
    match parseAttrListWith pa raw_class raw.attributes with
    | none => none
    | some (.panic m) => some (.panic m)
    | some (.ok attributes) =>
      some (.ok (.ok (.Code (.mk raw.max_stack raw.max_locals raw.code raw.exception_table attributes))))

/-- `JavaClassContainerBuilder::read_attribute` (src/java_class/builder.rs
lines 69-86), parameterized by the recursive attribute parser used for the
`Code` case. -/
def read_attribute (pa : AttributeInfo → JavaClassFile → Option (BOut AttributeType))
    (data : List Nat) (attr_name : List Nat) (raw_class : JavaClassFile) :
    Option (BOut (Except AttributeReadError AttributeType)) :=
  if attr_name = ascii "Code" then
    codeAttributeRead pa data raw_class
  else if attr_name = ascii "ConstantValue" then
    match rdU16 data 0 with
    | (.ok v, _) => some (.ok (.ok (.ConstantValueIndex ⟨v⟩)))
    | (.err e, _) => some (.ok (.error (.Deserialization e)))
    | (.panic m, _) => some (.panic m)
  else if attr_name = ascii "Deprecated" then some (.ok (.ok .Deprecated))
  else if attr_name = ascii "SourceFile" then
    match sourceFileAttributeRead data raw_class with
    | .ok s => some (.ok (.ok (.SourceFile s)))
    | .err e => some (.ok (.error (.Deserialization e)))
    | .panic m => some (.panic m)
  else some (.ok (.error .NotSuported))

/-- `JavaClassContainerBuilder::parse_attribute` (src/java_class/builder.rs
lines 88-115): resolve the attribute name (`find_utf8(..).unwrap()` — a
panic when absent), dispatch, and turn read errors into in-band `Error`
attributes.  `fuel` bounds the `Code`-attribute nesting depth, which in the
source is bounded by the strictly shrinking payload. -/
def parse_attribute : Nat → AttributeInfo → JavaClassFile → Option (BOut AttributeType)
  | 0, _, _ => none
  | fuel + 1, attribute_info, raw_class =>
    match raw_class.constant_pool.find_utf8 attribute_info.name_index with
    | none => some (.panic unwrapMsg)
    | some name =>
      match read_attribute (parse_attribute fuel) attribute_info.data name raw_class with
      | none => none
      | some (.panic m) => some (.panic m)
      | some (.ok (.ok parsed)) => some (.ok parsed)
      | some (.ok (.error (.Deserialization e))) =>
        some (.ok (.Error ⟨ascii "Deserialization error: " ++ e, attribute_info.data⟩))
      | some (.ok (.error .NotSuported)) =>
        some (.ok (.Error ⟨ascii "Not supported: " ++ name, attribute_info.data⟩))

/-- The attribute loop of `parse_fields` (src/java_class/builder.rs lines
220-243): a `ConstantValueIndex` result is promoted through
`parse_field_constant_value`, a failure becoming an in-band `Error`
attribute; everything else is attached as-is. -/
def parseFieldAttrs (pa : AttributeInfo → JavaClassFile → Option (BOut AttributeType))
    (descriptor : FieldDescriptor) (raw_class : JavaClassFile) :
    List AttributeInfo → Option (BOut (List AttributeType))
  | [] => some (.ok [])
  | a_info :: rest =>
    match pa a_info raw_class with
    | none => none
    | some (.panic m) => some (.panic m)
    | some (.ok parsed_attribute) =>
      let attr :=
        match parsed_attribute with
        | .ConstantValueIndex idx =>
          match parse_field_constant_value descriptor idx.value_cp_index raw_class with
          | .ok cvalue => AttributeType.ConstantValue cvalue
          | .error e =>
            AttributeType.Error ⟨ascii "Could not parse constant value, error: " ++ cvErrDebug e,
                                 a_info.data⟩
        | other => other
      match parseFieldAttrs pa descriptor raw_class rest with
      | none => none
      | some (.panic m) => some (.panic m)
      | some (.ok attrs) => some (.ok (attr :: attrs))

/-- `parse_fields` (src/java_class/builder.rs lines 196-247): resolve name
and descriptor (`unwrap` panics), skip the field when its descriptor does
not parse, otherwise attach its attributes. -/
def parse_fields (pa : AttributeInfo → JavaClassFile → Option (BOut AttributeType))
    (raw_class : JavaClassFile) : List FieldInfo → Option (BOut (List JField))
  | [] => some (.ok [])
  | field_info :: rest =>
    match raw_class.constant_pool.find_utf8 field_info.name_index with
    | none => some (.panic unwrapMsg)
    | some name =>
      match raw_class.constant_pool.find_utf8 field_info.descriptor_index with
      | none => some (.panic unwrapMsg)
      | some descriptor_raw_string =>
        match parse_field_descriptor descriptor_raw_string with
        | .panic m => some (.panic m)
        | .err m => some (.panic m)
        | .ok (.error _) => parse_fields pa raw_class rest
        | .ok (.ok descriptor) =>
          match parseFieldAttrs pa descriptor raw_class field_info.attributes with
          | none => none
          | some (.panic m) => some (.panic m)
          | some (.ok attrs) =>
            match parse_fields pa raw_class rest with
            | none => none
            | some (.panic m) => some (.panic m)
            | some (.ok fields) =>
              some (.ok (⟨field_info.access_flags, name, descriptor, attrs⟩ :: fields))

/-- `parse_methods` (src/java_class/builder.rs lines 249-281). -/
def parse_methods (pa : AttributeInfo → JavaClassFile → Option (BOut AttributeType))
    (raw_class : JavaClassFile) : List MethodInfo → Option (BOut (List Method))
  | [] => some (.ok [])
  | method_info :: rest =>
    match raw_class.constant_pool.find_utf8 method_info.name_index with
    | none => some (.panic unwrapMsg)
    | some name =>
      match raw_class.constant_pool.find_utf8 method_info.descriptor_index with
      | none => some (.panic unwrapMsg)
      | some descriptor_raw =>
        match parse_method_descriptor descriptor_raw with
        | .panic m => some (.panic m)
        | .err m => some (.panic m)
        | .ok (.error _) => parse_methods pa raw_class rest
        | .ok (.ok descriptor) =>
          match parseAttrListWith pa raw_class method_info.attributes with
          | none => none
          | some (.panic m) => some (.panic m)
          | some (.ok attrs) =>
            match parse_methods pa raw_class rest with
            | none => none
            | some (.panic m) => some (.panic m)
            | some (.ok methods) =>
              some (.ok (⟨method_info.access_flags, name, descriptor, attrs⟩ :: methods))

/-- `parse_class_attributes` (src/java_class/builder.rs lines 283-294); it
always returns `Ok` in the source, so the error-recovery branch of
`parse_class` (lines 306-312) is dead code. -/
def parse_class_attributes (pa : AttributeInfo → JavaClassFile → Option (BOut AttributeType))
    (raw_class : JavaClassFile) : Option (BOut (List AttributeType)) :=
  parseAttrListWith pa raw_class raw_class.attributes

/-- `parse_super_class` (src/java_class/builder.rs lines 36-67),
parameterized by the recursive class parser: resolve the super name
(`unwrap` panics), return the memoized class if present, otherwise link the
matching raw class RECURSIVELY — with the current class not yet memoized —
or insert a name-only placeholder when no raw class matches. -/
def parse_super_class (recur : Classes → JavaClassFile → Option (BOut (Classes × JavaClass)))
    (raws : List JavaClassFile) (classes : Classes) (raw_class : JavaClassFile) :
    Option (BOut (Classes × Option JavaClass)) :=
  if raw_class.super_class ≠ 0 then
    match raw_class.constant_pool.find_class raw_class.super_class with
    | none => some (.panic unwrapMsg)
    | some super_class_info =>
      match raw_class.constant_pool.find_utf8 super_class_info.name_index with
      | none => some (.panic unwrapMsg)
      | some super_name =>
        match builder_find_class classes super_name with
        | some parsed_super => some (.ok (classes, some parsed_super))
        | none =>
          match findRawByName raws super_name with
          | .panic m => some (.panic m)
          | .ok (some found_super) =>
            match recur classes found_super with
            | none => none
            | some (.panic m) => some (.panic m)
            | some (.ok (classes2, parsed_super)) => some (.ok (classes2, some parsed_super))
          | .ok none =>
            let dummy := JavaClass.from_name super_name
            some (.ok (classesInsert classes super_name dummy, some dummy))
  else some (.ok (classes, none))

/-- `parse_class` (src/java_class/builder.rs lines 296-321): resolve the
name via `get_name` (panics on malformed pools), short-circuit on the memo
map, link the super class FIRST, resolve attributes, fields and methods,
and only THEN insert the class into the memo map.  `fuel` bounds the
recursion depth (`none` models non-termination of the source's unbounded
recursion). -/
def parse_class : Nat → List JavaClassFile → Classes → JavaClassFile →
    Option (BOut (Classes × JavaClass))
  | 0, _, _, _ => none
  | fuel + 1, raws, classes, raw_class =>
    match raw_class.get_name with
    | .panic m => some (.panic m)
    | .err m => some (.panic m)
    | .ok name =>
      match builder_find_class classes name with
      | some c => some (.ok (classes, c))
      | none =>
        match parse_super_class (parse_class fuel raws) raws classes raw_class with
        | none => none
        | some (.panic m) => some (.panic m)
        | some (.ok (classes1, super_opt)) =>
          match parse_class_attributes (parse_attribute fuel) raw_class with
          | none => none
          | some (.panic m) => some (.panic m)
          | some (.ok attrs) =>
            match parse_fields (parse_attribute fuel) raw_class raw_class.fields with
            | none => none
            | some (.panic m) => some (.panic m)
            | some (.ok fields) =>
              match parse_methods (parse_attribute fuel) raw_class raw_class.methods with
              | none => none
              | some (.panic m) => some (.panic m)
              | some (.ok methods) =>
                let cls := JavaClass.mk raw_class.version name super_opt [] fields methods attrs
                some (.ok (classesInsert classes1 name cls, cls))

/-- The iteration of `parse_classes` over the raw classes (src/java_class/
builder.rs lines 323-329). -/
def parse_classes_loop (fuel : Nat) (raws : List JavaClassFile) :
    List JavaClassFile → Classes → Option (BOut Classes)
  | [], classes => some (.ok classes)
  | c :: rest, classes =>
    match parse_class fuel raws classes c with
    | none => none
    | some (.panic m) => some (.panic m)
    | some (.ok (classes2, _)) => parse_classes_loop fuel raws rest classes2

/-- `JavaClassContainerBuilder::parse_classes` (src/java_class/builder.rs
lines 323-329): fold `parse_class` over the collection, returning the memo
map.  A `none` result means the recursion exceeded every fuel bound, i.e.
the source diverges. -/
def parse_classes (fuel : Nat) (raws : List JavaClassFile) : Option (BOut Classes) :=
  parse_classes_loop fuel raws raws []

/- ----------------------------------------------------------------------
JDWP client pieces, from src/jdwp/{result,commands,client}.rs.
---------------------------------------------------------------------- -/

/-- The JDWP error-code enum (`pub enum JdwpErrorCode {}` in
src/jdwp/result.rs line 2): it has NO variants, so no value of it can ever
be constructed. -/
inductive JdwpErrorCode : Type

instance : DecidableEq JdwpErrorCode := fun a _ => nomatch a

instance : Repr JdwpErrorCode := ⟨fun a _ => nomatch a⟩

namespace result

/-- The client error type (`enum Error`, src/jdwp/result.rs lines 4-11).
Note which variants exist: there is no `HandshakeMismatch`, no `Timeout`
and no `ProtocolError` variant; `JdwpError` wraps the uninhabited
`JdwpErrorCode`. -/
inductive Error where
  | IoError (msg : List Nat)
  | JdwpError (code : JdwpErrorCode)
  | ParsingError (message : List Nat)
  | IdSizesUnknown
  | IdSizesTruncated
deriving Repr, DecidableEq

end result

/-- Modelled from the spec: the `JdwpIdSizes` struct declaration is not
among the provided sources (it is imported from `crate::jdwp`); per spec
section 3 and the construction site in src/jdwp/client.rs lines 283-289 it
holds the five identifier widths as `u8` fields. -/
structure JdwpIdSizes where
  field_id_size : Nat
  method_id_size : Nat
  object_id_size : Nat
  reference_type_id_size : Nat
  frame_id_size : Nat
deriving Repr, DecidableEq

/-- The `VirtualMachine.IDSizes` reply body (`struct IdSizesReply`,
src/jdwp/commands.rs lines 98-107): five big-endian `i32` values. -/
structure IdSizesReply where
  field_id_size : Int
  method_id_size : Int
  object_id_size : Int
  reference_type_id_size : Int
  frame_id_size : Int
deriving Repr, DecidableEq

/-- The binrw reader of `IdSizesReply`. -/
def readIdSizesReply (d : List Nat) (p : Nat) : PRes IdSizesReply × Nat :=
  pseq (rdI32 d p) fun f q1 =>
    pseq (rdI32 d q1) fun m q2 =>
      pseq (rdI32 d q2) fun o q3 =>
        pseq (rdI32 d q3) fun r q4 =>
          pseq (rdI32 d q4) fun fr q5 => (.ok ⟨f, m, o, r, fr⟩, q5)

/-- `i32::try_into::<u8>()`: succeeds exactly for values 0..=255. -/
def i32TryIntoU8 (v : Int) : Option Nat :=
  if 0 ≤ v ∧ v ≤ 255 then some v.toNat else none

/-- Embedding of `JdwpClient::get_id_sizes` (src/jdwp/client.rs lines
261-291), given the decoded `IdSizesReply`: each `i32` is converted with
`try_into::<u8>()` — the ONLY validation — and a failed conversion is
`Error::IdSizesTruncated`; on success the five `u8` values are stored. -/
def get_id_sizes (sizes : IdSizesReply) : Except result.Error JdwpIdSizes :=
  match i32TryIntoU8 sizes.field_id_size with
  | none => .error .IdSizesTruncated
  | some field_id =>
    match i32TryIntoU8 sizes.method_id_size with
    | none => .error .IdSizesTruncated
    | some method_id =>
      match i32TryIntoU8 sizes.object_id_size with
      | none => .error .IdSizesTruncated
      | some object_id =>
        match i32TryIntoU8 sizes.reference_type_id_size with
        | none => .error .IdSizesTruncated
        | some ref_id =>
          match i32TryIntoU8 sizes.frame_id_size with
          | none => .error .IdSizesTruncated
          | some frame_id =>
            .ok ⟨field_id, method_id, object_id, ref_id, frame_id⟩

/-- The 14-byte handshake string (`HANDSHAKE_STR`, src/jdwp/client.rs line
223). -/
def handshakeBytes : List Nat := ascii "JDWP-Handshake"

/-- Embedding of `JdwpClient::do_handshake` (src/jdwp/client.rs lines
222-245), applied to the 14 bytes read back from the peer: a non-UTF-8
reply is `Error::IoError`; a well-formed reply different from
`JDWP-Handshake` is `Error::ParsingError` with the formatted message —
there is no dedicated handshake-mismatch variant in `result::Error`. -/
def do_handshake (received : List Nat) : Except result.Error Unit :=
  if utf8Valid received then
    if received ≠ handshakeBytes then
      .error (.ParsingError
        (ascii "Invalid handshake: expected " ++ [39] ++ handshakeBytes ++ [39] ++
         ascii ", got " ++ [39] ++ received ++ [39]))
    else .ok ()
  else .error (.IoError (ascii "Invalid UTF-8"))

/-- The reply packet header (`struct ReplyPacketHeader`,
src/jdwp/commands.rs lines 32-55). -/
structure ReplyPacketHeader where
  length : Nat
  id : Nat
  flags : Nat
  error_code : Nat
deriving Repr, DecidableEq

def ReplyPacketHeader.get_length : Nat := 4 + 4 + 1 + 2

/-- `ReplyPacketHeader::is_success` (src/jdwp/commands.rs lines 52-54) —
defined by the source but never called by the client. -/
def ReplyPacketHeader.is_success (h : ReplyPacketHeader) : Bool := h.error_code = 0

/-- The binrw reader of `ReplyPacketHeader`: big-endian u32 length, u32 id,
u8 flags, u16 error_code. -/
def readReplyPacketHeader (d : List Nat) (p : Nat) : PRes ReplyPacketHeader × Nat :=
  pseq (rdU32 d p) fun len q1 =>
    pseq (rdU32 d q1) fun id q2 =>
      pseq (rdU8 d q2) fun flags q3 =>
        pseq (rdU16 d q3) fun error_code q4 => (.ok ⟨len, id, flags, error_code⟩, q4)

/-- A completed reply (`struct ReplyPacket`, src/jdwp/client.rs lines
25-28). -/
structure ReplyPacket where
  header : ReplyPacketHeader
  data : List Nat
deriving Repr, DecidableEq

/-- Embedding of `JdwpClient::read_reply_packet` (src/jdwp/client.rs lines
87-104) over the the stream's pending bytes: read 11 header bytes (short
read is `IoError`), parse the header, compute `length - 11` (wrapping
`usize` subtraction, release semantics) and read that many body bytes.  The
error code arrives in the header and is stored untouched. -/
def read_reply_packet (wire : List Nat) : Except result.Error ReplyPacket :=
  match rdExact wire ReplyPacketHeader.get_length 0 with
  | (.err e, _) => .error (.IoError e)
  | (.panic _, _) => .error (.IoError (ascii "panic"))
  | (.ok header_buffer, _) =>
    match (readReplyPacketHeader header_buffer 0).1 with
    | .err e => .error (.ParsingError (ascii "Parsing error: " ++ e))
    | .panic e => .error (.ParsingError (ascii "Parsing error: " ++ e))
    | .ok header =>
      let data_length := ((((header.length : Int) - 11).emod (2 ^ 64))).toNat
      match rdExact wire data_length ReplyPacketHeader.get_length with
      | (.err e, _) => .error (.IoError e)
      | (.panic _, _) => .error (.IoError (ascii "panic"))
      | (.ok data, _) => .ok ⟨header, data⟩

/-- Embedding of the reply-parsing tail of `JdwpClient::send_bodyless`
(src/jdwp/client.rs lines 189-198): the body bytes are handed to the reply
decoder from position 0 and the decoded value is returned to the caller.
NOTHING inspects `reply_packet.header.error_code`. -/
def send_bodyless_parse {α : Type} (reply_packet : ReplyPacket)
    (rd : List Nat → Nat → PRes α × Nat) : PRes (Except result.Error α) :=
  match rd reply_packet.data 0 with
  | (.ok reply, _) => .ok (.ok reply)
  | (.err e, _) => .ok (.error (.ParsingError (ascii "Binary parsing error: " ++ e)))
  | (.panic m, _) => .panic m

/- ----------------------------------------------------------------------
Helper encoders and concrete inputs used by the claim theorems.
---------------------------------------------------------------------- -/

/-- Big-endian two-byte encoding of a `u16` value. -/
def u16be (n : Nat) : List Nat := [n / 256 % 256, n % 256]

/-- Big-endian four-byte encoding of a `u32` value. -/
def u32be (n : Nat) : List Nat :=
  [n / 2 ^ 24 % 256, n / 2 ^ 16 % 256, n / 2 ^ 8 % 256, n % 256]

/-- The entries that occupy two constant-pool slots. -/
def isWideEntry : ConstantPoolEntry → Bool
  | .Long _ => true
  | .Double _ => true
  | _ => false

/-- Tableswitch opcode at offset 0: the decoder skips 2 padding bytes and
reads the 4-byte default from offset 3 (bytes 3..6 hold 99); low = 5,
high = 3. -/
def c1TableBuf : List Nat := [0xAA, 0, 0, 0, 0, 0, 99, 0, 0, 0, 5, 0, 0, 0, 3]

/-- Lookupswitch opcode at offset 0: default read from offset 3 (value 77),
npairs = 0. -/
def c1LookupBuf : List Nat := [0xAB, 0, 0, 0, 0, 0, 77, 0, 0, 0, 0]

/-- A 24-byte class file whose magic is 0xDEADBEEF: empty constant pool and
empty member lists. -/
def c2buf : List Nat :=
  [0xDE, 0xAD, 0xBE, 0xEF, 0, 0, 0, 52, 0, 0, 0, 0, 0, 0, 0, 0, 0, 0, 0, 0, 0, 0, 0, 0]

/-- The class structure `c2buf` decodes to. -/
def c2cf : JavaClassFile := ⟨⟨0xDEADBEEF, 0, 52⟩, ⟨[]⟩, 0, 0, 0, [], [], [], []⟩

/-- Constant pool of class A: index 1 holds Utf8 "A", 2 a Class pointing at
it, 3 holds Utf8 "B", 4 a Class pointing at it. -/
def cpA : ConstantPool :=
  ⟨[.Invalid, .Utf8 (ascii "A"), .Class ⟨1⟩, .Utf8 (ascii "B"), .Class ⟨3⟩]⟩

/-- Constant pool of class B, the mirror image of `cpA`. -/
def cpB : ConstantPool :=
  ⟨[.Invalid, .Utf8 (ascii "B"), .Class ⟨1⟩, .Utf8 (ascii "A"), .Class ⟨3⟩]⟩

/-- Raw class A: `this_class` names A, `super_class` names B. -/
def rawA : JavaClassFile := ⟨Version.default, cpA, 0, 2, 4, [], [], [], []⟩

/-- Raw class B: `this_class` names B, `super_class` names A — together with
`rawA` a super-class cycle. -/
def rawB : JavaClassFile := ⟨Version.default, cpB, 0, 2, 4, [], [], [], []⟩

/-- The constant-pool bytes: count 4, a Long 7 at index 1 (slot 2 reserved),
Utf8 "A" at index 3. -/
def c6PoolBytes : List Nat := [0, 4, 5, 0, 0, 0, 0, 0, 0, 0, 7, 1, 0, 1, 65]

/-- The pool `c6PoolBytes` decodes to. -/
def c6pool : ConstantPool := ⟨[.Invalid, .Long 7, .Invalid, .Utf8 [65]]⟩

/-- Tableswitch at offset 0 with low = -1 and high = 2^31 - 1: the i32 count
computation overflows. -/
def c7OverflowBuf : List Nat :=
  [0xAA, 0, 0, 0, 0, 0, 99, 0xFF, 0xFF, 0xFF, 0xFF, 0x7F, 0xFF, 0xFF, 0xFF]

/-- The repository's own `test_table_switch_no_padding` vector (reader
entered at position 3): default 16, low 5, high 7, offsets 21, 37, 53. -/
def c7WitnessBuf : List Nat :=
  [0xFF, 0xFF, 0xFF, 0, 0, 0, 16, 0, 0, 0, 5, 0, 0, 0, 7,
   0, 0, 0, 21, 0, 0, 0, 37, 0, 0, 0, 53]

/-- An `IDSizes` reply body: five big-endian i32 values of 8. -/
def c8Body : List Nat :=
  [0, 0, 0, 8, 0, 0, 0, 8, 0, 0, 0, 8, 0, 0, 0, 8, 0, 0, 0, 8]

/-- A reply packet on the wire whose header carries error code 5: length 31
(11 + 20), id 1, reply flag 0x80, error 5, then `c8Body`. -/
def c8Wire : List Nat := [0, 0, 0, 31, 0, 0, 0, 1, 128, 0, 5] ++ c8Body

/-- The packet `c8Wire` decodes to. -/
def c8Packet : ReplyPacket := ⟨⟨31, 1, 128, 5⟩, c8Body⟩

/-- A code buffer: the undefined opcode byte 0xFE followed by nop (0x00) and
istore_0 (0x3B). -/
def c9buf : List Nat := [0xFE, 0x00, 0x3B]

/-- A well-magiced 24-byte class file with an empty constant pool, so
`this_class = 0` cannot point at a Class entry. -/
def c10buf : List Nat :=
  [0xCA, 0xFE, 0xBA, 0xBE, 0, 0, 0, 52, 0, 0, 0, 0, 0, 0, 0, 0, 0, 0, 0, 0, 0, 0, 0, 0]

/-- The class structure `c10buf` decodes to. -/
def c10cf : JavaClassFile := ⟨⟨0xCAFEBABE, 0, 52⟩, ⟨[]⟩, 0, 0, 0, [], [], [], []⟩

/- ----------------------------------------------------------------------
Theorems settling the claims.
---------------------------------------------------------------------- -/

/-- Helper: an exact read that stays inside the prefix of an appended buffer
succeeds and is independent of the suffix. -/
theorem rdExact_on_front (xs rest : List Nat) (n p : Nat) (h : p + n ≤ xs.length) :
    rdExact (xs ++ rest) n p = (.ok ((xs.drop p).take n), p + n) := by
  unfold rdExact
  rw [if_pos (by simp only [List.length_append]; omega)]
  rw [List.drop_append_of_le_length (by omega), List.take_append_of_le_length
    (by simp only [List.length_drop]; omega)]

/-- Claim C1: the claim states that after the opcode byte of a
tableswitch/lookupswitch the decoder skips 0-3 bytes so that the 4-byte
default operand is read from an offset that is a multiple of 4 relative to
the code-array origin.  The code computes the padding from the position
AFTER the opcode byte with a formula that is only correct for the position
OF the opcode byte, so for every opcode offset `o` the default operand is
read from offset `o + 1 + switchPadding (o+1)`, which is congruent to 3
modulo 4 — never 4-aligned.  Concretely, with the opcode at offset 0 the
decoder skips 2 bytes and reads the default from offset 3 (the buffers
plant the value 99 resp. 77 there). -/
theorem c1_switch_padding_misaligned :
    (∀ o : Nat, (o + 1 + switchPadding (o + 1)) % 4 = 3) ∧
    instructionRead c1TableBuf 0 = (.ok (.Tableswitch 99 5 3 []), 15) ∧
    instructionRead c1LookupBuf 0 = (.ok (.Lookupswitch 77 []), 11) := by
  refine ⟨fun o => ?_, rfl, rfl⟩
  simp only [switchPadding]
  omega

/-- Claim C2, counterexample: a 24-byte buffer beginning with 0xDEADBEEF
decodes to a complete `JavaClassFile` (magic stored verbatim), refuting the
claim that such input fails with a parse error and returns no class. -/
theorem c2_bad_magic_decodes : decodeJavaClassFile c2buf = .ok c2cf := rfl

/-- Claim C2, amended: the header reader stores the 4-byte magic without any
validation — for every minor/major byte values and every remainder, a buffer
beginning 0xDEADBEEF parses into a `Version` carrying magic 0xDEADBEEF, and
decoding proceeds past the header. -/
theorem c2_magic_not_validated (b5 b6 b7 b8 : Nat) (rest : List Nat) :
    readVersion ([0xDE, 0xAD, 0xBE, 0xEF, b5, b6, b7, b8] ++ rest) 0 =
      (.ok ⟨0xDEADBEEF, beNat [b5, b6], beNat [b7, b8]⟩, 8) := by
  unfold readVersion pseq rdU32 rdU16 rdUBE
  rw [rdExact_on_front _ _ 4 0 (by simp)]
  dsimp only
  rw [rdExact_on_front _ _ 2 4 (by simp)]
  dsimp only
  rw [rdExact_on_front _ _ 2 6 (by simp)]
  norm_num [beNat]

/-- Claim C4, counterexample: an IDSizes reply with field-id size 3 — a value
outside the set 1, 2, 4, 8 — is ACCEPTED and stored by `get_id_sizes`,
refuting the claim that any value outside that set fails with
`IdSizesTruncated`. -/
theorem c4_size3_accepted : get_id_sizes ⟨3, 8, 8, 8, 8⟩ = .ok ⟨3, 8, 8, 8, 8⟩ := rfl

/-- Claim C4, amended: `get_id_sizes` stores the five sizes if and only if
every returned i32 fits into a `u8` (is between 0 and 255); otherwise — for
example for 300 or a negative size — it fails with `IdSizesTruncated` and
stores nothing.  Membership in the set 1, 2, 4, 8 is not checked. -/
theorem c4_validation_is_u8_range (r : IdSizesReply) :
    ((∃ s, get_id_sizes r = .ok s) ↔
      ((0 ≤ r.field_id_size ∧ r.field_id_size ≤ 255) ∧
       (0 ≤ r.method_id_size ∧ r.method_id_size ≤ 255) ∧
       (0 ≤ r.object_id_size ∧ r.object_id_size ≤ 255) ∧
       (0 ≤ r.reference_type_id_size ∧ r.reference_type_id_size ≤ 255) ∧
       (0 ≤ r.frame_id_size ∧ r.frame_id_size ≤ 255))) ∧
    (get_id_sizes r = .ok ⟨r.field_id_size.toNat, r.method_id_size.toNat, r.object_id_size.toNat,
        r.reference_type_id_size.toNat, r.frame_id_size.toNat⟩ ∨
      get_id_sizes r = .error .IdSizesTruncated) := by
  obtain ⟨f, m, o, rt, fr⟩ := r
  by_cases h1 : 0 ≤ f ∧ f ≤ 255
  case neg =>
    have hg : get_id_sizes ⟨f, m, o, rt, fr⟩ = .error .IdSizesTruncated := by
      simp only [get_id_sizes, i32TryIntoU8, if_neg h1]
    simp [hg, h1]
  case pos =>
  by_cases h2 : 0 ≤ m ∧ m ≤ 255
  case neg =>
    have hg : get_id_sizes ⟨f, m, o, rt, fr⟩ = .error .IdSizesTruncated := by
      simp only [get_id_sizes, i32TryIntoU8, if_pos h1, if_neg h2]
    simp [hg, h1, h2]
  case pos =>
  by_cases h3 : 0 ≤ o ∧ o ≤ 255
  case neg =>
    have hg : get_id_sizes ⟨f, m, o, rt, fr⟩ = .error .IdSizesTruncated := by
      simp only [get_id_sizes, i32TryIntoU8, if_pos h1, if_pos h2, if_neg h3]
    simp [hg, h1, h2, h3]
  case pos =>
  by_cases h4 : 0 ≤ rt ∧ rt ≤ 255
  case neg =>
    have hg : get_id_sizes ⟨f, m, o, rt, fr⟩ = .error .IdSizesTruncated := by
      simp only [get_id_sizes, i32TryIntoU8, if_pos h1, if_pos h2, if_pos h3, if_neg h4]
    simp [hg, h1, h2, h3, h4]
  case pos =>
  by_cases h5 : 0 ≤ fr ∧ fr ≤ 255
  case neg =>
    have hg : get_id_sizes ⟨f, m, o, rt, fr⟩ = .error .IdSizesTruncated := by
      simp only [get_id_sizes, i32TryIntoU8, if_pos h1, if_pos h2, if_pos h3, if_pos h4, if_neg h5]
    simp [hg, h1, h2, h3, h4, h5]
  case pos =>
    have hg : get_id_sizes ⟨f, m, o, rt, fr⟩ =
        .ok ⟨f.toNat, m.toNat, o.toNat, rt.toNat, fr.toNat⟩ := by
      simp only [get_id_sizes, i32TryIntoU8, if_pos h1, if_pos h2, if_pos h3, if_pos h4, if_pos h5]
    simp [hg, h1, h2, h3, h4, h5]

/-- Claim C4, witness: the amended theorem applied at the concrete reply
(3, 8, 8, 8, 8), whose values all fit into a u8, yields storage. -/
theorem c4_witness : ∃ s, get_id_sizes ⟨3, 8, 8, 8, 8⟩ = .ok s :=
  (c4_validation_is_u8_range ⟨3, 8, 8, 8, 8⟩).1.mpr (by norm_num)

/-- Claim C5, counterexample: the 14-byte reply JDWP-NOPESORRY makes the
handshake fail with the GENERIC `Error::ParsingError` — the `result::Error`
type has no `HandshakeMismatch` variant at all — refuting the claim that
construction fails with a distinguished `HandshakeMismatch` error kind. -/
theorem c5_mismatch_is_parsing_error :
    do_handshake (ascii "JDWP-NOPESORRY") =
      .error (.ParsingError (ascii "Invalid handshake: expected " ++ [39] ++ handshakeBytes ++
        [39] ++ ascii ", got " ++ [39] ++ ascii "JDWP-NOPESORRY" ++ [39])) := rfl

/-- Claim C5, amended: the handshake succeeds exactly on the 14-byte reply
`JDWP-Handshake`; every well-formed (UTF-8) different reply fails with
`Error::ParsingError` carrying a message naming the expected and received
strings (a non-UTF-8 reply fails with `Error::IoError`). -/
theorem c5_handshake_result (received : List Nat) :
    (do_handshake received = .ok () ↔ received = handshakeBytes) ∧
    (utf8Valid received = true → received ≠ handshakeBytes →
      do_handshake received = .error (.ParsingError (ascii "Invalid handshake: expected " ++
        [39] ++ handshakeBytes ++ [39] ++ ascii ", got " ++ [39] ++ received ++ [39]))) := by
  have hv : utf8Valid handshakeBytes = true := by decide
  by_cases hu : utf8Valid received = true <;> by_cases he : received = handshakeBytes <;>
    simp_all [do_handshake]

/-- Claim C5, witness: the amended theorem applied at the concrete reply
JDWP-NOPESORRY. -/
theorem c5_witness :
    do_handshake (ascii "JDWP-NOPESORRY") =
      .error (.ParsingError (ascii "Invalid handshake: expected " ++ [39] ++ handshakeBytes ++
        [39] ++ ascii ", got " ++ [39] ++ ascii "JDWP-NOPESORRY" ++ [39])) :=
  (c5_handshake_result (ascii "JDWP-NOPESORRY")).2 (by decide) (by decide)

/-- Claim C7, counterexample: with low = -1 and high = 2^31 - 1 the i32
count computation wraps (release semantics), so the decoder returns an
EMPTY offsets list, while the claimed exact-arithmetic length
max(0, high - low + 1) = 2^31 + 1 is nonzero — refuting the claim that the
offsets list always has the exact-arithmetic length. -/
theorem c7_count_overflow :
    instructionRead c7OverflowBuf 0 = (.ok (.Tableswitch 99 (-1) 2147483647 []), 15) ∧
    max 0 ((2147483647 : Int) - (-1) + 1) ≠ ((([] : List Int).length : Int)) := by
  constructor
  · rfl
  · simp

/-- Claim C8, counterexample: a reply packet whose header carries the
nonzero error code 5 is decoded from the wire with the code preserved, its
body is parsed, and the CALLER RECEIVES the successfully parsed
`IdSizesReply` — refuting the claim that a caller never receives a parsed
reply from a packet with a nonzero error code.  `is_success` exists but is
never consulted by `send_bodyless`. -/
theorem c8_nonzero_error_reply_delivered :
    read_reply_packet c8Wire = .ok c8Packet ∧
    c8Packet.header.error_code = 5 ∧
    ReplyPacketHeader.is_success c8Packet.header = false ∧
    send_bodyless_parse c8Packet readIdSizesReply = .ok (.ok ⟨8, 8, 8, 8, 8⟩) :=
  ⟨rfl, rfl, rfl, rfl⟩

/-- Claim C10: `JavaClassFile::get_name` panics whenever `this_class` does
not resolve to a Class entry, or the Class entry's name index does not
resolve to a UTF-8 entry; a class file witnessing the first case decodes
successfully (`c10buf`, whose constant pool is empty), and on it both
`parse_class` and `parse_attribute` panic instead of failing softly. -/
theorem c10_get_name_panics :
    (∀ cf : JavaClassFile, cf.constant_pool.find_class cf.this_class = none →
        cf.get_name = .panic unwrapMsg) ∧
    (∀ (cf : JavaClassFile) (ci : CpClass), cf.constant_pool.find_class cf.this_class = some ci →
        cf.constant_pool.find_utf8 ci.name_index = none → cf.get_name = .panic unwrapMsg) ∧
    decodeJavaClassFile c10buf = .ok c10cf ∧
    c10cf.get_name = .panic unwrapMsg ∧
    parse_class 1 [c10cf] [] c10cf = some (.panic unwrapMsg) ∧
    parse_attribute 1 ⟨0, []⟩ c10cf = some (.panic unwrapMsg) := by
  refine ⟨?_, ?_, rfl, rfl, rfl, rfl⟩
  · intro cf h
    simp only [JavaClassFile.get_name, h, unwrapMsg]
  · intro cf ci h1 h2
    simp only [JavaClassFile.get_name, h1, h2, unwrapMsg]

/-- Claim C10, witness: the theorem instantiated on the concrete decoded
class file with the empty constant pool. -/
theorem c10_witness :
    decodeJavaClassFile c10buf = .ok c10cf ∧ c10cf.get_name = .panic unwrapMsg :=
  ⟨c10_get_name_panics.2.2.1, c10_get_name_panics.1 c10cf rfl⟩

/-- Helper for claim C3: on the cyclic pair, `parse_class` exhausts every
fuel bound — the source recursion never returns, because neither class is
memoized before the recursion into its super. -/
theorem c3_aux : ∀ (fuel : Nat) (cls : Classes),
    builder_find_class cls (ascii "A") = none → builder_find_class cls (ascii "B") = none →
    parse_class fuel [rawA, rawB] cls rawA = none ∧
    parse_class fuel [rawA, rawB] cls rawB = none := by
  intro fuel
  induction fuel with
  | zero => intro cls _ _; exact ⟨rfl, rfl⟩
  | succ f ih =>
    intro cls hA hB
    have hgA : rawA.get_name = .ok (ascii "A") := rfl
    have hgB : rawB.get_name = .ok (ascii "B") := rfl
    have hsA : rawA.super_class = 4 := rfl
    have hsB : rawB.super_class = 4 := rfl
    have hcA : rawA.constant_pool.find_class 4 = some ⟨3⟩ := rfl
    have hcB : rawB.constant_pool.find_class 4 = some ⟨3⟩ := rfl
    have huA : rawA.constant_pool.find_utf8 3 = some (ascii "B") := rfl
    have huB : rawB.constant_pool.find_utf8 3 = some (ascii "A") := rfl
    have hfA : findRawByName [rawA, rawB] (ascii "A") = .ok (some rawA) := rfl
    have hfB : findRawByName [rawA, rawB] (ascii "B") = .ok (some rawB) := rfl
    constructor
    · have hrec : parse_class f [rawA, rawB] cls rawB = none := (ih cls hA hB).2
      simp only [parse_class, parse_super_class, hgA, hsA, hcA, huA, hA, hB, hfB, hrec]
      simp
    · have hrec : parse_class f [rawA, rawB] cls rawA = none := (ih cls hA hB).1
      simp only [parse_class, parse_super_class, hgB, hsB, hcB, huB, hA, hB, hfA, hrec]
      simp

/-- Claim C3: the linker memoizes a class only AFTER its super-class has
been processed (builder.rs lines 304 and 317-318), so on the two-class
super cycle A extends B extends A the recursion of `parse_classes` never
terminates: it exhausts every fuel bound. -/
theorem c3_cycle_diverges : ∀ fuel : Nat, parse_classes fuel [rawA, rawB] = none := by
  intro fuel
  have h := (c3_aux fuel [] rfl rfl).1
  simp [parse_classes, parse_classes_loop, h]

/-- Helper: a byte-valued fold is bounded by 256 to the list length. -/
theorem beNat_fold_bound : ∀ (bs : List Nat) (acc : Nat), (∀ b ∈ bs, b < 256) →
    List.foldl (fun a b => a * 256 + b) acc bs < (acc + 1) * 256 ^ bs.length := by
  intro bs
  induction bs with
  | nil => intro acc _; simp
  | cons b t ih =>
    intro acc hb
    have hbl : b < 256 := hb b (by simp)
    have ht : ∀ x ∈ t, x < 256 := fun x hx => hb x (by simp [hx])
    have h1 := ih (acc * 256 + b) ht
    simp only [List.foldl_cons, List.length_cons]
    calc List.foldl (fun a b => a * 256 + b) (acc * 256 + b) t
        < (acc * 256 + b + 1) * 256 ^ t.length := h1
      _ ≤ ((acc + 1) * 256) * 256 ^ t.length := by nlinarith
      _ = (acc + 1) * 256 ^ (t.length + 1) := by ring

/-- Helper: a successful big-endian i32 read from a byte buffer yields a
value in the i32 range. -/
theorem rdI32_range (d : List Nat) (p : Nat) (v : Int) (q : Nat)
    (hbytes : ∀ b ∈ d, b < 256) (h : rdI32 d p = (.ok v, q)) :
    -(2 ^ 31) ≤ v ∧ v < 2 ^ 31 := by
  unfold rdI32 rdIBE rdExact at h
  by_cases hc : p + 4 ≤ d.length
  · rw [if_pos hc] at h
    simp only [Prod.mk.injEq, PRes.ok.injEq] at h
    obtain ⟨hv, _⟩ := h
    set bs := (d.drop p).take 4 with hbs
    have hlen : bs.length = 4 := by
      rw [hbs, List.length_take, List.length_drop]; omega
    have hmem : ∀ b ∈ bs, b < 256 := by
      intro b hbmem
      exact hbytes b (List.mem_of_mem_drop (List.mem_of_mem_take hbmem))
    have hbound : beNat bs < 2 ^ 32 := by
      have := beNat_fold_bound bs 0 hmem
      simpa [beNat, hlen] using this
    rw [← hv]
    unfold toSigned
    have hb2 : beNat bs < 4294967296 := by norm_num at hbound; exact hbound
    norm_num
    split_ifs <;> constructor <;> omega
  · rw [if_neg hc] at h
    simp at h

/-- Helper: the tableswitch offsets loop returns exactly as many new
entries as requested. -/
theorem tsOffsets_length : ∀ (d : List Nat) (n p : Nat) (acc out : List Int) (q : Nat),
    tsOffsets d n p acc = (.ok out, q) → out.length = n + acc.length := by
  intro d n
  induction n with
  | zero =>
    intro p acc out q h
    simp only [tsOffsets, Prod.mk.injEq, PRes.ok.injEq] at h
    simp [← h.1]
  | succ m ih =>
    intro p acc out q h
    unfold tsOffsets at h
    rcases hr : rdI32 d p with ⟨res, q1⟩
    rw [hr] at h
    cases res with
    | ok off =>
      have := ih q1 (off :: acc) out q h
      simp only [List.length_cons] at this
      omega
    | err e => simp at h
    | panic e => simp at h

/-- Claim C7, amended: the element count of a decoded tableswitch is
`high - low + 1` computed in WRAPPING 32-bit arithmetic and clamped at 0
(in a debug build the overflow would panic instead); whenever the exact
`high - low + 1` fits in an i32 this equals the claimed exact
`max 0 (high - low + 1)`, and then `high < low` yields an empty list. -/
theorem c7_wrapped_count (d : List Nat) (p : Nat) (dflt low high : Int) (offsets : List Int)
    (q : Nat) (hbytes : ∀ b ∈ d, b < 256)
    (h : read_table_switch d p = (.ok (.Tableswitch dflt low high offsets), q)) :
    ((offsets.length : Int) = max 0 (wrap32 (wrap32 (high - low) + 1))) ∧
    (-(2 ^ 31) ≤ high - low + 1 → high - low + 1 < 2 ^ 31 →
      (offsets.length : Int) = max 0 (high - low + 1)) ∧
    (high < low → -(2 ^ 31) ≤ high - low + 1 → offsets = []) := by
  simp only [read_table_switch] at h
  rcases h1 : rdI32 d (p + switchPadding p) with ⟨r1, q1⟩
  rw [h1] at h
  cases r1 with
  | err e => simp at h
  | panic e => simp at h
  | ok dflt1 =>
    dsimp only at h
    rcases h2 : rdI32 d q1 with ⟨r2, q2⟩
    rw [h2] at h
    cases r2 with
    | err e => simp at h
    | panic e => simp at h
    | ok low1 =>
      dsimp only at h
      rcases h3 : rdI32 d q2 with ⟨r3, q3⟩
      rw [h3] at h
      cases r3 with
      | err e => simp at h
      | panic e => simp at h
      | ok high1 =>
        dsimp only at h
        rcases h4 : tsOffsets d
            (if wrap32 (wrap32 (high1 - low1) + 1) < 0 then 0
             else wrap32 (wrap32 (high1 - low1) + 1)).toNat q3 [] with ⟨r4, q4⟩
        rw [h4] at h
        cases r4 with
        | err e => simp at h
        | panic e => simp at h
        | ok offs =>
          dsimp only at h
          simp only [Prod.mk.injEq, PRes.ok.injEq, Instruction.Tableswitch.injEq] at h
          obtain ⟨⟨hd, hl, hh, ho⟩, hq⟩ := h
          subst hd hl hh ho
          have hlen := tsOffsets_length d _ q3 [] offs q4 h4
          have hlow := rdI32_range d q1 low1 q2 hbytes h2
          have hhigh := rdI32_range d q2 high1 q3 hbytes h3
          simp only [List.length_nil, Nat.add_zero] at hlen
          have hmain : (offs.length : Int) = max 0 (wrap32 (wrap32 (high1 - low1) + 1)) := by
            by_cases hneg : wrap32 (wrap32 (high1 - low1) + 1) < 0
            · rw [if_pos hneg] at hlen
              rw [hlen]
              simp
              omega
            · rw [if_neg hneg] at hlen
              rw [hlen]
              omega
          refine ⟨hmain, ?_, ?_⟩
          · intro hge hlt
            rw [hmain]
            simp only [wrap32]
            omega
          · intro hltlo hge
            have hz : (offs.length : Int) = 0 := by
              rw [hmain]
              simp only [wrap32]
              omega
            have hn : offs.length = 0 := by exact_mod_cast hz
            exact List.length_eq_zero.mp hn

/-- Claim C7, witness: the amended theorem applied to the repository's own
no-padding test vector (low 5, high 7, three offsets). -/
theorem c7_witness :
    ((([21, 37, 53] : List Int).length : Int) = max 0 (wrap32 (wrap32 ((7 : Int) - 5) + 1))) :=
  (c7_wrapped_count c7WitnessBuf 3 16 5 7 [21, 37, 53] 27 (by decide) rfl).1

/-- Claim C8, amended: the u16 error code of a reply header is decoded and
preserved verbatim in the parsed header, but the client IGNORES it — the
reply-body parse of `send_bodyless` is completely independent of the header
error code, so a caller can receive a successfully parsed reply value from
a packet whose error code is nonzero (no `ProtocolError` variant exists in
`result::Error`). -/
theorem c8_error_code_ignored :
    (∀ (hdr : ReplyPacketHeader) (data : List Nat) (e : Nat) (α : Type)
        (rd : List Nat → Nat → PRes α × Nat),
      send_bodyless_parse ⟨⟨hdr.length, hdr.id, hdr.flags, e⟩, data⟩ rd =
        send_bodyless_parse ⟨hdr, data⟩ rd) ∧
    (∀ (len id flags ec : Nat) (body : List Nat) (pkt : ReplyPacket),
      ec < 2 ^ 16 →
      read_reply_packet (u32be len ++ u32be id ++ [flags] ++ u16be ec ++ body) = .ok pkt →
      pkt.header.error_code = ec) := by
  constructor
  · intro hdr data e α rd
    rfl
  · intro len id flags ec body pkt hec h
    simp only [read_reply_packet, u32be, u16be, List.cons_append, List.nil_append,
      List.append_assoc, show ReplyPacketHeader.get_length = 11 from rfl] at h
    have heq := rdExact_on_front
      [len / 2 ^ 24 % 256, len / 2 ^ 16 % 256, len / 2 ^ 8 % 256, len % 256,
       id / 2 ^ 24 % 256, id / 2 ^ 16 % 256, id / 2 ^ 8 % 256, id % 256,
       flags, ec / 256 % 256, ec % 256] body 11 0 (by simp)
    simp only [List.cons_append, List.nil_append, List.drop_zero] at heq
    rw [heq] at h
    simp only [readReplyPacketHeader, pseq, rdU32, rdU16, rdU8, rdUBE, rdExact] at h
    norm_num at h
    split at h
    · simp at h
    · simp at h
    · simp only [Except.ok.injEq] at h
      rw [← h]
      simp [beNat]
      omega

/-- Claim C8, witness: the amended theorem applied to the concrete wire
packet with error code 5. -/
theorem c8_witness : c8Packet.header.error_code = 5 :=
  c8_error_code_ignored.2 31 1 128 5 c8Body c8Packet (by norm_num) rfl

theorem getD_set_ne {α : Type} (l : List α) (i j : Nat) (v dflt : α) (h : i ≠ j) :
    (l.set i v).getD j dflt = l.getD j dflt := by
  simp [List.getD_eq_getElem?_getD, List.getElem?_set, h]

theorem getD_replicate {α : Type} (n i : Nat) (a : α) :
    (List.replicate n a).getD i a = a := by
  simp only [List.getD_eq_getElem?_getD, List.getElem?_replicate]
  split <;> rfl

theorem cpStep_preserves (entries : List ConstantPoolEntry) (pc : Nat) (entry : ConstantPoolEntry)
    (hA : ∀ i, pc ≤ i → entries.getD i .Invalid = .Invalid)
    (hB : ∀ n, isWideEntry (entries.getD n .Invalid) = true →
      n + 2 ≤ pc ∧ entries.getD (n + 1) .Invalid = .Invalid)
    (pc' : Nat) (hpc : pc' = if isWideEntry entry then pc + 2 else pc + 1) :
    (∀ i, pc' ≤ i → (entries.set pc entry).getD i .Invalid = .Invalid) ∧
    (∀ n, isWideEntry ((entries.set pc entry).getD n .Invalid) = true →
      n + 2 ≤ pc' ∧ (entries.set pc entry).getD (n + 1) .Invalid = .Invalid) := by
  have hpc1 : pc + 1 ≤ pc' := by rw [hpc]; split <;> omega
  constructor
  · intro i hi
    rw [getD_set_ne entries pc i entry .Invalid (by omega)]
    exact hA i (by omega)
  · intro n hw
    by_cases hn : n = pc
    · subst hn
      by_cases hlen : n < entries.length
      · have hgd : (entries.set n entry).getD n ConstantPoolEntry.Invalid = entry := by
          simp [List.getD_eq_getElem?_getD, List.getElem?_set, hlen]
        rw [hgd] at hw
        constructor
        · rw [hpc, if_pos hw]
        · rw [getD_set_ne entries n (n + 1) entry .Invalid (by omega)]
          exact hA (n + 1) (by omega)
      · have hgd : (entries.set n entry).getD n ConstantPoolEntry.Invalid =
            ConstantPoolEntry.Invalid := by
          simp [List.getD_eq_getElem?_getD, List.getElem?_set, hlen]
        rw [hgd] at hw
        simp [isWideEntry] at hw
    · rw [getD_set_ne entries pc n entry .Invalid (fun he => hn he.symm)] at hw
      obtain ⟨hle, hinv⟩ := hB n hw
      constructor
      · omega
      · rw [getD_set_ne entries pc (n + 1) entry .Invalid (by omega)]
        exact hinv

theorem cpLoop_invariant (d : List Nat) (length : Nat) :
    ∀ (fuel : Nat) (entries : List ConstantPoolEntry) (pc p : Nat)
      (out : List ConstantPoolEntry) (q : Nat),
      (∀ i, pc ≤ i → entries.getD i .Invalid = .Invalid) →
      (∀ n, isWideEntry (entries.getD n .Invalid) = true →
        n + 2 ≤ pc ∧ entries.getD (n + 1) .Invalid = .Invalid) →
      cpLoop d length fuel entries pc p = (.ok out, q) →
      ∀ n, isWideEntry (out.getD n .Invalid) = true → out.getD (n + 1) .Invalid = .Invalid := by
  intro fuel
  induction fuel with
  | zero =>
    intro entries pc p out q hA hB h
    unfold cpLoop at h
    split at h
    · simp at h
    · simp only [Prod.mk.injEq, PRes.ok.injEq] at h
      rw [← h.1]
      intro n hw
      exact (hB n hw).2
  | succ f ih =>
    intro entries pc p out q hA hB h
    unfold cpLoop at h
    split at h
    case isTrue hlt =>
      rcases hr : readConstantPoolEntry d p with ⟨re, q1⟩
      rw [hr] at h
      cases re with
      | err e => simp at h
      | panic e => simp at h
      | ok entry =>
        dsimp only at h
        cases entry <;>
          exact ih _ _ _ out q
            (cpStep_preserves entries pc _ hA hB _ (by simp [isWideEntry])).1
            (cpStep_preserves entries pc _ hA hB _ (by simp [isWideEntry])).2 h
    case isFalse =>
      simp only [Prod.mk.injEq, PRes.ok.injEq] at h
      rw [← h.1]
      intro n hw
      exact (hB n hw).2

theorem readConstantPool_two_slot (d : List Nat) (p q : Nat) (cp : ConstantPool)
    (h : readConstantPool d p = (.ok cp, q)) :
    ∀ n, isWideEntry (cp.entries.getD n .Invalid) = true →
      cp.entries.getD (n + 1) .Invalid = .Invalid := by
  simp only [readConstantPool, pseq] at h
  rcases h16 : rdU16 d p with ⟨r16, q16⟩
  rw [h16] at h
  cases r16 with
  | err e => simp at h
  | panic e => simp at h
  | ok length =>
    dsimp only at h
    rcases hl : cpLoop d length length (List.replicate length .Invalid) 1 q16 with ⟨rl, ql⟩
    rw [hl] at h
    cases rl with
    | err e => simp at h
    | panic e => simp at h
    | ok entries =>
      dsimp only at h
      simp only [Prod.mk.injEq, PRes.ok.injEq] at h
      obtain ⟨hcp, _⟩ := h
      rw [← hcp]
      exact cpLoop_invariant d length length (List.replicate length .Invalid) 1 q16 entries ql
        (fun i _ => getD_replicate length i ConstantPoolEntry.Invalid)
        (fun n hw => by
          rw [getD_replicate length n ConstantPoolEntry.Invalid] at hw
          simp [isWideEntry] at hw)
        hl

theorem accessors_none_of_invalid (cp : ConstantPool) (i : Nat)
    (h : cp.entries.getD i .Invalid = .Invalid) :
    cp.find_utf8 i = none ∧ cp.find_class i = none ∧ cp.find_int i = none ∧
    cp.find_float i = none ∧ cp.find_long i = none ∧ cp.find_double i = none ∧
    cp.find_string_ref i = none := by
  refine ⟨?_, ?_, ?_, ?_, ?_, ?_, ?_⟩
  · simp only [ConstantPool.find_utf8, h]; split <;> rfl
  · simp only [ConstantPool.find_class, h]; split <;> rfl
  · simp only [ConstantPool.find_int, h]; split <;> rfl
  · simp only [ConstantPool.find_float, h]; split <;> rfl
  · simp only [ConstantPool.find_long, h]; split <;> rfl
  · simp only [ConstantPool.find_double, h]; split <;> rfl
  · simp only [ConstantPool.find_string_ref, h]; split <;> rfl

theorem accessors_none_of_oob (cp : ConstantPool) (i : Nat)
    (h : cp.entries.length ≤ i) :
    cp.find_utf8 i = none ∧ cp.find_class i = none ∧ cp.find_int i = none ∧
    cp.find_float i = none ∧ cp.find_long i = none ∧ cp.find_double i = none ∧
    cp.find_string_ref i = none := by
  refine ⟨?_, ?_, ?_, ?_, ?_, ?_, ?_⟩
  · simp only [ConstantPool.find_utf8, if_pos h]
  · simp only [ConstantPool.find_class, if_pos h]
  · simp only [ConstantPool.find_int, if_pos h]
  · simp only [ConstantPool.find_float, if_pos h]
  · simp only [ConstantPool.find_long, if_pos h]
  · simp only [ConstantPool.find_double, if_pos h]
  · simp only [ConstantPool.find_string_ref, if_pos h]

theorem find_utf8_some (cp : ConstantPool) (i : Nat) (s : List Nat)
    (h : cp.find_utf8 i = some s) : cp.entries.getD i .Invalid = .Utf8 s := by
  unfold ConstantPool.find_utf8 at h
  split at h
  · simp at h
  · split at h <;> simp_all

theorem find_class_some (cp : ConstantPool) (i : Nat) (c : CpClass)
    (h : cp.find_class i = some c) : cp.entries.getD i .Invalid = .Class c := by
  unfold ConstantPool.find_class at h
  split at h
  · simp at h
  · split at h <;> simp_all

theorem find_int_some (cp : ConstantPool) (i : Nat) (v : Int)
    (h : cp.find_int i = some v) : cp.entries.getD i .Invalid = .Integer v := by
  unfold ConstantPool.find_int at h
  split at h
  · simp at h
  · split at h <;> simp_all

theorem find_float_some (cp : ConstantPool) (i : Nat) (v : Nat)
    (h : cp.find_float i = some v) : cp.entries.getD i .Invalid = .Float v := by
  unfold ConstantPool.find_float at h
  split at h
  · simp at h
  · split at h <;> simp_all

theorem find_long_some (cp : ConstantPool) (i : Nat) (v : Int)
    (h : cp.find_long i = some v) : cp.entries.getD i .Invalid = .Long v := by
  unfold ConstantPool.find_long at h
  split at h
  · simp at h
  · split at h <;> simp_all

theorem find_double_some (cp : ConstantPool) (i : Nat) (v : Nat)
    (h : cp.find_double i = some v) : cp.entries.getD i .Invalid = .Double v := by
  unfold ConstantPool.find_double at h
  split at h
  · simp at h
  · split at h <;> simp_all

theorem find_string_ref_some (cp : ConstantPool) (i : Nat) (s : List Nat)
    (h : cp.find_string_ref i = some s) :
    ∃ j, cp.entries.getD i .Invalid = .String ⟨j⟩ ∧ cp.find_utf8 j = some s := by
  unfold ConstantPool.find_string_ref at h
  split at h
  · simp at h
  · split at h <;> try simp_all
    rename_i s1 hlt heq
    exact ⟨s1.string_index, rfl, h⟩

/-- C6: for every successfully decoded constant pool, a `Long` or `Double`
entry at index `n` makes slot `n + 1` unusable (it stays `Invalid`, so all
seven typed accessors return `none` there); out-of-range indices give
`none` from every accessor; and each accessor returns `some` only on an
entry of its own kind (so wrong-kind lookups return `none`), with a
`String` hit resolving through a `Utf8` entry.  All accessors are total
Lean functions into `Option`, so none of them can panic. -/
theorem c6_two_slot_and_soft_accessors (d : List Nat) (p q : Nat) (cp : ConstantPool)
    (h : readConstantPool d p = (.ok cp, q)) :
    (∀ n, isWideEntry (cp.entries.getD n .Invalid) = true →
      cp.find_utf8 (n + 1) = none ∧ cp.find_class (n + 1) = none ∧
      cp.find_int (n + 1) = none ∧ cp.find_float (n + 1) = none ∧
      cp.find_long (n + 1) = none ∧ cp.find_double (n + 1) = none ∧
      cp.find_string_ref (n + 1) = none) ∧
    (∀ i, cp.entries.length ≤ i →
      cp.find_utf8 i = none ∧ cp.find_class i = none ∧ cp.find_int i = none ∧
      cp.find_float i = none ∧ cp.find_long i = none ∧ cp.find_double i = none ∧
      cp.find_string_ref i = none) ∧
    (∀ i s, cp.find_utf8 i = some s → cp.entries.getD i .Invalid = .Utf8 s) ∧
    (∀ i c, cp.find_class i = some c → cp.entries.getD i .Invalid = .Class c) ∧
    (∀ i v, cp.find_int i = some v → cp.entries.getD i .Invalid = .Integer v) ∧
    (∀ i v, cp.find_float i = some v → cp.entries.getD i .Invalid = .Float v) ∧
    (∀ i v, cp.find_long i = some v → cp.entries.getD i .Invalid = .Long v) ∧
    (∀ i v, cp.find_double i = some v → cp.entries.getD i .Invalid = .Double v) ∧
    (∀ i s, cp.find_string_ref i = some s →
      ∃ j, cp.entries.getD i .Invalid = .String ⟨j⟩ ∧ cp.find_utf8 j = some s) := by
  refine ⟨?_, accessors_none_of_oob cp, find_utf8_some cp, find_class_some cp,
    find_int_some cp, find_float_some cp, find_long_some cp, find_double_some cp,
    find_string_ref_some cp⟩
  intro n hw
  exact accessors_none_of_invalid cp (n + 1) (readConstantPool_two_slot d p q cp h n hw)

theorem c6_witness :
    c6pool.find_utf8 2 = none ∧ c6pool.find_class 2 = none ∧ c6pool.find_int 2 = none ∧
    c6pool.find_float 2 = none ∧ c6pool.find_long 2 = none ∧ c6pool.find_double 2 = none ∧
    c6pool.find_string_ref 2 = none :=
  (c6_two_slot_and_soft_accessors c6PoolBytes 0 15 c6pool rfl).1 1 rfl

theorem rdExact_good (d : List Nat) (n p : Nat) :
    p ≤ (rdExact d n p).2 ∧ ∀ m, (rdExact d n p).1 ≠ .panic m := by
  unfold rdExact
  split <;> constructor <;> simp

theorem rdUBE_good (d : List Nat) (n p : Nat) :
    p ≤ (rdUBE d n p).2 ∧ ∀ m, (rdUBE d n p).1 ≠ .panic m := by
  unfold rdUBE
  rcases h : rdExact d n p with ⟨r, q⟩
  have hg := rdExact_good d n p
  rw [h] at hg
  cases r <;> simp_all

theorem rdIBE_good (d : List Nat) (n p : Nat) :
    p ≤ (rdIBE d n p).2 ∧ ∀ m, (rdIBE d n p).1 ≠ .panic m := by
  unfold rdIBE
  rcases h : rdExact d n p with ⟨r, q⟩
  have hg := rdExact_good d n p
  rw [h] at hg
  cases r <;> simp_all

theorem rdU8_good (d : List Nat) (p : Nat) :
    p ≤ (rdU8 d p).2 ∧ ∀ m, (rdU8 d p).1 ≠ .panic m := rdUBE_good d 1 p

theorem rdU16_good (d : List Nat) (p : Nat) :
    p ≤ (rdU16 d p).2 ∧ ∀ m, (rdU16 d p).1 ≠ .panic m := rdUBE_good d 2 p

theorem rdI8_good (d : List Nat) (p : Nat) :
    p ≤ (rdI8 d p).2 ∧ ∀ m, (rdI8 d p).1 ≠ .panic m := rdIBE_good d 1 p

theorem rdI16_good (d : List Nat) (p : Nat) :
    p ≤ (rdI16 d p).2 ∧ ∀ m, (rdI16 d p).1 ≠ .panic m := rdIBE_good d 2 p

theorem rdI32_good (d : List Nat) (p : Nat) :
    p ≤ (rdI32 d p).2 ∧ ∀ m, (rdI32 d p).1 ≠ .panic m := rdIBE_good d 4 p

theorem instU8_good (d : List Nat) (p : Nat) (f : Nat → Instruction) :
    p ≤ (instU8 d p f).2 ∧ ∀ m, (instU8 d p f).1 ≠ .panic m := by
  unfold instU8
  rcases h : rdU8 d p with ⟨r, q⟩
  have hg := rdU8_good d p
  rw [h] at hg
  cases r <;> simp_all

theorem instU16_good (d : List Nat) (p : Nat) (f : Nat → Instruction) :
    p ≤ (instU16 d p f).2 ∧ ∀ m, (instU16 d p f).1 ≠ .panic m := by
  unfold instU16
  rcases h : rdU16 d p with ⟨r, q⟩
  have hg := rdU16_good d p
  rw [h] at hg
  cases r <;> simp_all

theorem instI8_good (d : List Nat) (p : Nat) (f : Int → Instruction) :
    p ≤ (instI8 d p f).2 ∧ ∀ m, (instI8 d p f).1 ≠ .panic m := by
  unfold instI8
  rcases h : rdI8 d p with ⟨r, q⟩
  have hg := rdI8_good d p
  rw [h] at hg
  cases r <;> simp_all

theorem instI16_good (d : List Nat) (p : Nat) (f : Int → Instruction) :
    p ≤ (instI16 d p f).2 ∧ ∀ m, (instI16 d p f).1 ≠ .panic m := by
  unfold instI16
  rcases h : rdI16 d p with ⟨r, q⟩
  have hg := rdI16_good d p
  rw [h] at hg
  cases r <;> simp_all

theorem instI32_good (d : List Nat) (p : Nat) (f : Int → Instruction) :
    p ≤ (instI32 d p f).2 ∧ ∀ m, (instI32 d p f).1 ≠ .panic m := by
  unfold instI32
  rcases h : rdI32 d p with ⟨r, q⟩
  have hg := rdI32_good d p
  rw [h] at hg
  cases r <;> simp_all

theorem instU16U8_good (d : List Nat) (p : Nat) (f : Nat → Nat → Instruction) :
    p ≤ (instU16U8 d p f).2 ∧ ∀ m, (instU16U8 d p f).1 ≠ .panic m := by
  unfold instU16U8
  rcases h1 : rdU16 d p with ⟨r1, q1⟩
  have hg1 := rdU16_good d p
  rw [h1] at hg1
  cases r1 with
  | err e => simp_all
  | panic e => exact absurd rfl (hg1.2 e)
  | ok v =>
    dsimp only
    rcases h2 : rdU8 d q1 with ⟨r2, q2⟩
    have hg2 := rdU8_good d q1
    rw [h2] at hg2
    cases r2 with
    | err e => exact ⟨le_trans hg1.1 hg2.1, by simp⟩
    | panic e => exact absurd rfl (hg2.2 e)
    | ok w => exact ⟨le_trans hg1.1 hg2.1, by simp⟩

theorem instU8I8_good (d : List Nat) (p : Nat) (f : Nat → Int → Instruction) :
    p ≤ (instU8I8 d p f).2 ∧ ∀ m, (instU8I8 d p f).1 ≠ .panic m := by
  unfold instU8I8
  rcases h1 : rdU8 d p with ⟨r1, q1⟩
  have hg1 := rdU8_good d p
  rw [h1] at hg1
  cases r1 with
  | err e => simp_all
  | panic e => exact absurd rfl (hg1.2 e)
  | ok v =>
    dsimp only
    rcases h2 : rdI8 d q1 with ⟨r2, q2⟩
    have hg2 := rdI8_good d q1
    rw [h2] at hg2
    cases r2 with
    | err e => exact ⟨le_trans hg1.1 hg2.1, by simp⟩
    | panic e => exact absurd rfl (hg2.2 e)
    | ok w => exact ⟨le_trans hg1.1 hg2.1, by simp⟩

theorem lsPairs_good (d : List Nat) :
    ∀ (n p : Nat) (acc : List (Int × Int)),
      p ≤ (lsPairs d n p acc).2 ∧ ∀ m, (lsPairs d n p acc).1 ≠ .panic m := by
  intro n
  induction n with
  | zero => intro p acc; simp [lsPairs]
  | succ k ih =>
    intro p acc
    unfold lsPairs
    rcases h1 : rdI32 d p with ⟨r1, q1⟩
    have hg1 := rdI32_good d p
    rw [h1] at hg1
    cases r1 with
    | err e => simp_all
    | panic e => exact absurd rfl (hg1.2 e)
    | ok mtch =>
      dsimp only
      rcases h2 : rdI32 d q1 with ⟨r2, q2⟩
      have hg2 := rdI32_good d q1
      rw [h2] at hg2
      cases r2 with
      | err e => exact ⟨le_trans hg1.1 hg2.1, by simp⟩
      | panic e => exact absurd rfl (hg2.2 e)
      | ok off =>
        dsimp only
        have hrec := ih q2 (mapInsert acc mtch off)
        exact ⟨le_trans hg1.1 (le_trans hg2.1 hrec.1), hrec.2⟩

theorem tsOffsets_good (d : List Nat) :
    ∀ (n p : Nat) (acc : List Int),
      p ≤ (tsOffsets d n p acc).2 ∧ ∀ m, (tsOffsets d n p acc).1 ≠ .panic m := by
  intro n
  induction n with
  | zero => intro p acc; simp [tsOffsets]
  | succ k ih =>
    intro p acc
    unfold tsOffsets
    rcases h1 : rdI32 d p with ⟨r1, q1⟩
    have hg1 := rdI32_good d p
    rw [h1] at hg1
    cases r1 with
    | err e => simp_all
    | panic e => exact absurd rfl (hg1.2 e)
    | ok off =>
      dsimp only
      have hrec := ih q1 (off :: acc)
      exact ⟨le_trans hg1.1 hrec.1, hrec.2⟩

theorem read_lookup_switch_good (d : List Nat) (p : Nat) :
    p ≤ (read_lookup_switch d p).2 ∧ ∀ m, (read_lookup_switch d p).1 ≠ .panic m := by
  unfold read_lookup_switch
  dsimp only
  rcases h1 : rdI32 d (p + switchPadding p) with ⟨r1, q1⟩
  have hg1 := rdI32_good d (p + switchPadding p)
  rw [h1] at hg1
  have hpad : p ≤ p + switchPadding p := by omega
  cases r1 with
  | err e => exact ⟨le_trans hpad hg1.1, by simp⟩
  | panic e => exact absurd rfl (hg1.2 e)
  | ok dflt =>
    dsimp only
    rcases h2 : rdI32 d q1 with ⟨r2, q2⟩
    have hg2 := rdI32_good d q1
    rw [h2] at hg2
    cases r2 with
    | err e => exact ⟨le_trans hpad (le_trans hg1.1 hg2.1), by simp⟩
    | panic e => exact absurd rfl (hg2.2 e)
    | ok cnt =>
      dsimp only
      rcases h3 : lsPairs d cnt.toNat q2 [] with ⟨r3, q3⟩
      have hg3 := lsPairs_good d cnt.toNat q2 []
      rw [h3] at hg3
      cases r3 with
      | err e => exact ⟨le_trans hpad (le_trans hg1.1 (le_trans hg2.1 hg3.1)), by simp⟩
      | panic e => exact absurd rfl (hg3.2 e)
      | ok prs => exact ⟨le_trans hpad (le_trans hg1.1 (le_trans hg2.1 hg3.1)), by simp⟩

theorem read_table_switch_good (d : List Nat) (p : Nat) :
    p ≤ (read_table_switch d p).2 ∧ ∀ m, (read_table_switch d p).1 ≠ .panic m := by
  unfold read_table_switch
  dsimp only
  rcases h1 : rdI32 d (p + switchPadding p) with ⟨r1, q1⟩
  have hg1 := rdI32_good d (p + switchPadding p)
  rw [h1] at hg1
  have hpad : p ≤ p + switchPadding p := by omega
  cases r1 with
  | err e => exact ⟨le_trans hpad hg1.1, by simp⟩
  | panic e => exact absurd rfl (hg1.2 e)
  | ok dflt =>
    dsimp only
    rcases h2 : rdI32 d q1 with ⟨r2, q2⟩
    have hg2 := rdI32_good d q1
    rw [h2] at hg2
    cases r2 with
    | err e => exact ⟨le_trans hpad (le_trans hg1.1 hg2.1), by simp⟩
    | panic e => exact absurd rfl (hg2.2 e)
    | ok low =>
      dsimp only
      rcases h3 : rdI32 d q2 with ⟨r3, q3⟩
      have hg3 := rdI32_good d q2
      rw [h3] at hg3
      cases r3 with
      | err e => exact ⟨le_trans hpad (le_trans hg1.1 (le_trans hg2.1 hg3.1)), by simp⟩
      | panic e => exact absurd rfl (hg3.2 e)
      | ok high =>
        dsimp only
        rcases h4 : tsOffsets d
            (if wrap32 (wrap32 (high - low) + 1) < 0 then 0
             else wrap32 (wrap32 (high - low) + 1)).toNat q3 [] with ⟨r4, q4⟩
        have hg4 := tsOffsets_good d
            (if wrap32 (wrap32 (high - low) + 1) < 0 then 0
             else wrap32 (wrap32 (high - low) + 1)).toNat q3 []
        rw [h4] at hg4
        cases r4 with
        | err e =>
          exact ⟨le_trans hpad (le_trans hg1.1 (le_trans hg2.1 (le_trans hg3.1 hg4.1))), by simp⟩
        | panic e => exact absurd rfl (hg4.2 e)
        | ok offs =>
          exact ⟨le_trans hpad (le_trans hg1.1 (le_trans hg2.1 (le_trans hg3.1 hg4.1))), by simp⟩

theorem readWideInstruction_good (d : List Nat) (p : Nat) :
    p ≤ (readWideInstruction d p).2 ∧ ∀ m, (readWideInstruction d p).1 ≠ .panic m := by
  unfold readWideInstruction
  rcases h1 : rdU8 d p with ⟨r1, q1⟩
  have hg1 := rdU8_good d p
  rw [h1] at hg1
  cases r1 with
  | err e => simp_all
  | panic e => exact absurd rfl (hg1.2 e)
  | ok b =>
    dsimp only
    split
    · exact ⟨hg1.1, by simp⟩
    · split
      all_goals try exact ⟨hg1.1, by simp⟩
      all_goals
        first
        | ( rcases h2 : rdU16 d q1 with ⟨r2, q2⟩
            have hg2 := rdU16_good d q1
            rw [h2] at hg2
            cases r2 with
            | err e => exact ⟨le_trans hg1.1 hg2.1, by simp⟩
            | panic e => exact absurd rfl (hg2.2 e)
            | ok v =>
              dsimp only
              first
              | exact ⟨le_trans hg1.1 hg2.1, by simp⟩
              | ( rcases h3 : rdI16 d q2 with ⟨r3, q3⟩
                  have hg3 := rdI16_good d q2
                  rw [h3] at hg3
                  cases r3 with
                  | err e => exact ⟨le_trans hg1.1 (le_trans hg2.1 hg3.1), by simp⟩
                  | panic e => exact absurd rfl (hg3.2 e)
                  | ok w => exact ⟨le_trans hg1.1 (le_trans hg2.1 hg3.1), by simp⟩ ) )

theorem instructionRead_good (d : List Nat) (p : Nat) (h : p < d.length) :
    p + 1 ≤ (instructionRead d p).2 ∧ ∀ m, (instructionRead d p).1 ≠ .panic m := by
  have h8 : rdU8 d p = (.ok (beNat ((d.drop p).take 1)), p + 1) := by
    unfold rdU8 rdUBE rdExact
    rw [if_pos (show p + 1 ≤ d.length by omega)]
  unfold instructionRead
  rw [h8]
  dsimp only
  cases hs : opcodeTable.getD (beNat ((d.drop p).take 1)) OpShape.invalid with
  | simple i => exact ⟨le_refl _, by simp [instSimple]⟩
  | u8op f => exact instU8_good d (p + 1) f
  | u16op f => exact instU16_good d (p + 1) f
  | i8op f => exact instI8_good d (p + 1) f
  | i16op f => exact instI16_good d (p + 1) f
  | i32op f => exact instI32_good d (p + 1) f
  | u16u8op f => exact instU16U8_good d (p + 1) f
  | u8i8op f => exact instU8I8_good d (p + 1) f
  | tableswitch => exact read_table_switch_good d (p + 1)
  | lookupswitch => exact read_lookup_switch_good d (p + 1)
  | wide => exact readWideInstruction_good d (p + 1)
  | invalid => exact ⟨le_refl _, by simp⟩

theorem parseInstructionsLoop_total (d : List Nat) :
    ∀ (fuel p : Nat) (acc : List Instruction), d.length ≤ p + fuel →
      ∃ l q, parseInstructionsLoop d fuel p acc = (.ok l, q) := by
  intro fuel
  induction fuel with
  | zero =>
    intro p acc h
    refine ⟨acc.reverse, p, ?_⟩
    unfold parseInstructionsLoop
    rw [if_neg (by omega)]
  | succ f ih =>
    intro p acc h
    unfold parseInstructionsLoop
    by_cases hp : p < d.length
    · rw [if_pos hp]
      rcases hi : instructionRead d p with ⟨ri, qi⟩
      have hg := instructionRead_good d p hp
      rw [hi] at hg
      cases ri with
      | ok i =>
        dsimp only
        exact ih qi (i :: acc) (by have h1 : p + 1 ≤ qi := hg.1; omega)
      | err e =>
        dsimp only
        exact ih qi (.Unknown (ascii "Could not read instruction: " ++ e) :: acc)
          (by have h1 : p + 1 ≤ qi := hg.1; omega)
      | panic e => exact absurd rfl (hg.2 e)
    · rw [if_neg hp]
      exact ⟨acc.reverse, p, rfl⟩

/-- C9: a byte that is not a defined JVM opcode (the dispatch table covers
0x00 through 0xC9, so every byte above 201 falls to the `Err` arm of the
`TryFrom` match) decodes to the in-band `Unknown` instruction whose text is
"Invalid opcode: " followed by the byte in decimal, and the position
advances exactly one byte, so decoding resumes at the next byte; on the
concrete buffer [0xFE, 0x00, 0x3B] the parse yields
`Unknown "Invalid opcode: 254"` followed by the decodings of the remaining
bytes; and `parse_instructions` returns `Ok` on every buffer at every start
position, because a failed instruction read is also caught and stored as an
in-band `Unknown` instruction. -/
theorem c9_unknown_opcode_resumes :
    (∀ (d : List Nat) (p b : Nat), d[p]? = some b → 201 < b →
      instructionRead d p =
        (.ok (.Unknown (ascii "Invalid opcode: " ++ natDecimal b)), p + 1)) ∧
    parse_instructions c9buf 0 =
      .ok [.Unknown (ascii "Invalid opcode: 254"), .Nop, .Istore 0] ∧
    (∀ (d : List Nat) (p : Nat), ∃ l, parse_instructions d p = .ok l) := by
  refine ⟨?_, rfl, ?_⟩
  · intro d p b hb hgt
    have hlen : p < d.length := (List.getElem?_eq_some.mp hb).1
    have hget : d[p] = b := (List.getElem?_eq_some.mp hb).2
    have hdrop : (d.drop p).take 1 = [b] := by
      rw [List.drop_eq_getElem_cons hlen, hget]
      simp
    have h8 : rdU8 d p = (.ok b, p + 1) := by
      unfold rdU8 rdUBE rdExact
      rw [if_pos (show p + 1 ≤ d.length by omega), hdrop]
      simp [beNat]
    have htlen : opcodeTable.length = 202 := rfl
    have htab : opcodeTable.getD b OpShape.invalid = OpShape.invalid := by
      rw [List.getD_eq_getElem?_getD, List.getElem?_eq_none (by omega)]
      rfl
    unfold instructionRead
    rw [h8]
    dsimp only
    rw [htab]
  · intro d p
    obtain ⟨l, q, h⟩ := parseInstructionsLoop_total d (d.length + 1) p [] (by omega)
    exact ⟨l, by unfold parse_instructions; rw [h]⟩

theorem c9_witness :
    instructionRead c9buf 0 =
      (.ok (.Unknown (ascii "Invalid opcode: " ++ natDecimal 254)), 0 + 1) :=
  c9_unknown_opcode_resumes.1 c9buf 0 254 rfl (by decide)
